import Mathlib

/-!
# JNvrtc: the JNI binding layer over the NVRTC runtime-compilation library

A shallow embedding of `CUDAStub/JNvrtcJNI/src/JNvrtc.cpp`.

Every exported function of the file is a JNI entry point that validates its
managed arguments, marshals them, calls the wrapped library and marshals the
results back.  The embedding threads an explicit environment `Env` through each
entry point.  The environment carries the state of the wrapped library together
with what the wrapper did during the call: the library calls it made, the
exceptions it raised, the writes to the handle field, and its native
allocations.

Conventions of the embedding:

* A managed reference is an `Option`; `none` is `null`.  A managed string array is a
  list of nullable strings, a managed `int[]` or `long[]` a list of integers.  The
  objects an entry point may modify are returned next to the result code.
* The wrapped library and the string constructor of the managed runtime are
  external; they are the fields of `Collab`, over an arbitrary library state.
* The helpers of `JNvrtc_common.hpp` (`ThrowByName`, `convertString`,
  `convertStringArray`, `deleteStringArray`, `set`, `getNativePointerValue`,
  `setNativePointerValue`, `Logger::log`) are not part of the translated file; they
  are modelled from the specification and marked so.  The specification gives the
  conversions no failure mode; the entry points still test their results for NULL
  where the source does.
* `jlong`, `intptr_t` and the handle type have the same width, so the casts between
  them around `getNativePointerValue` and `setNativePointerValue` keep the value.
* A plain `new char[n]` either yields a buffer of `n` bytes or throws
  `std::bad_alloc`, which no entry point catches: the call then does not return.  It
  never yields NULL; the test for NULL that follows it in the source is kept.  Whether
  the C++ runtime can provide `n` bytes is the field `operatorNewArray` of `Collab`.
* A `size_t` holds a value below `2 ^ 64`.
-/

namespace JNvrtc

/-! ## Data model -/

/-- A throwable raised in the managed runtime: class name and message. -/
structure Throwable where
  className : String
  message : String
deriving DecidableEq, Repr

/-- A native character string made by `convertString`: its address and its text. -/
structure CString where
  addr : Nat
  chars : String
deriving DecidableEq, Repr

/-- A native array of character strings made by `convertStringArray`; an entry is
`none` for a NULL pointer. -/
structure CStringArray where
  addr : Nat
  elems : List (Option CString)
deriving DecidableEq, Repr

/-- An output buffer obtained with `new char[size]`. -/
structure Buffer where
  addr : Nat
  size : Nat
deriving DecidableEq, Repr

/-- The managed handle object (`nvrtcProgram`): one field holding the opaque native
reference as a `jlong`. -/
structure NativePointerObject where
  nativePointer : Int
deriving DecidableEq, Repr

/-- A call into the wrapped library, with the handle reference and the buffer or
expression it was given. -/
inductive NativeCall where
  | nvrtcGetErrorString (result : Int)
  | nvrtcVersion
  | nvrtcCreateProgram (prog : Int) (numHeaders : Int)
  | nvrtcDestroyProgram (prog : Int)
  | nvrtcCompileProgram (prog : Int) (numOptions : Int)
  | nvrtcGetPTXSize (prog : Int)
  | nvrtcGetPTX (prog : Int) (ptx : Buffer)
  | nvrtcGetProgramLogSize (prog : Int)
  | nvrtcGetProgramLog (prog : Int) (log : Buffer)
  | nvrtcAddNameExpression (prog : Int) (name_expression : Option String)
  | nvrtcGetLoweredName (prog : Int) (name_expression : Option String)
deriving DecidableEq, Repr

/-- What a library function hands back: the library state after the call, the result
code, and the value left in its output parameter. -/
structure Ret (σ α : Type) where
  state : σ
  result : Int
  out : α

/-- The collaborators of `JNvrtc.cpp` that lie outside the repository, over a library
state `σ`: the NVRTC functions (each output parameter becomes the `out` component),
the JNI string constructor `NewStringUTF` (`none` is the NULL it returns when the
string cannot be built), the allocator of the C++ runtime (`operatorNewArray n` tells
whether `operator new[]` can provide `n` bytes; when it cannot, `std::bad_alloc` is
thrown), and the constant `CUDA_INTERNAL_ERROR` of `JNvrtc_common.hpp`, whose value the
translated file does not fix. -/
structure Collab (σ : Type) where
  CUDA_INTERNAL_ERROR : Int
  NewStringUTF : Option String → Option String
  operatorNewArray : Nat → Bool
  nvrtcGetErrorString : Int → Option String
  nvrtcVersion : σ → Ret σ (Int × Int)
  nvrtcCreateProgram : σ → Int → Option String → Option String → Int →
    Option (List (Option String)) → Option (List (Option String)) → Ret σ Int
  nvrtcDestroyProgram : σ → Int → Ret σ Int
  nvrtcCompileProgram : σ → Int → Int → Option (List (Option String)) → Ret σ Unit
  nvrtcGetPTXSize : σ → Int → Ret σ Nat
  nvrtcGetPTX : σ → Int → Buffer → Ret σ String
  nvrtcGetProgramLogSize : σ → Int → Ret σ Nat
  nvrtcGetProgramLog : σ → Int → Buffer → Ret σ String
  nvrtcAddNameExpression : σ → Int → Option String → Ret σ Unit
  nvrtcGetLoweredName : σ → Int → Option String → Ret σ (Option String)

/-- The environment threaded through one entry point.
* `native`: state of the wrapped library;
* `calls`: the library calls made so far, in order;
* `thrown`: the exceptions raised so far, in order;
* `writes`: the values stored into the handle field so far, in order;
* `live`: addresses of the strings and string arrays made by `convertString` and
  `convertStringArray` that have not been released;
* `buffers`: every output buffer obtained with `new char[n]`, in order;
* `liveBuffers`: addresses of the output buffers not yet released;
* `nextAddr`: the next fresh address. -/
structure Env (σ : Type) where
  native : σ
  calls : List NativeCall
  thrown : List Throwable
  writes : List Int
  live : List Nat
  buffers : List Buffer
  liveBuffers : List Nat
  nextAddr : Nat

/-- The environment at the moment the managed runtime enters an entry point. -/
def Env.start {σ : Type} (s : σ) : Env σ :=
  { native := s, calls := [], thrown := [], writes := [], live := [],
    buffers := [], liveBuffers := [], nextAddr := 0 }

/-- Result of a successful library call (`NVRTC_SUCCESS = 0` in `nvrtc.h`). -/
def NVRTC_SUCCESS : Int := 0

/-- Trace level of the logger (an enumerator of `Logger.hpp`; its value plays no role). -/
def LOG_TRACE : Nat := 5

/-- The conversion of a `size_t` to a `jlong` (two's complement, 64 bits). -/
def toJlong (n : Nat) : Int :=
  if n % 2 ^ 64 < 2 ^ 63 then ((n % 2 ^ 64 : Nat) : Int) else ((n % 2 ^ 64 : Nat) : Int) - 2 ^ 64

/-- The value a `size_t` holds when the library leaves `n` in it (64 bits). -/
def toSizeT (n : Nat) : Nat := n % 2 ^ 64

/-! ## Helpers of `JNvrtc_common.hpp` -/

/-- Modelled from the spec: `Logger::log` (Logger, not in the translated file) writes
a line to the console; it touches neither the managed objects nor the library. -/
def Logger.log {σ : Type} (env : Env σ) (_level : Nat) (_message : String) : Env σ := env

/-- Modelled from the spec: `ThrowByName` (JNIUtils, not in the translated file)
raises a throwable of the named class with the given message. -/
def ThrowByName {σ : Type} (env : Env σ) (className message : String) : Env σ :=
  { env with thrown := env.thrown ++ [⟨className, message⟩] }

/-- Modelled from the spec: `getNativePointerValue` (PointerUtils, not in the
translated file) reads the opaque native reference out of the handle field. -/
def getNativePointerValue (obj : NativePointerObject) : Int := obj.nativePointer

/-- Modelled from the spec: `setNativePointerValue` (PointerUtils, not in the
translated file) writes a native reference back into the handle field. -/
def setNativePointerValue {σ : Type} (env : Env σ) (_obj : NativePointerObject) (value : Int) :
    Env σ × NativePointerObject :=
  ({ env with writes := env.writes ++ [value] }, { nativePointer := value })

/-- Modelled from the spec: `convertString` (JNIUtils, not in the translated file)
converts a managed text value to an owned native null-terminated sequence.  The
specification gives it no failure mode, so the result is never NULL. -/
def convertString {σ : Type} (env : Env σ) (js : String) : Env σ × Option CString :=
  ({ env with live := env.live ++ [env.nextAddr], nextAddr := env.nextAddr + 1 },
    some ⟨env.nextAddr, js⟩)

/-- Conversion of the elements of a managed string array, left to right; a null
element becomes a NULL entry. -/
def convertStringElems {σ : Type} (env : Env σ) :
    List (Option String) → Env σ × List (Option CString)
  | [] => (env, [])
  | none :: rest =>
    let r := convertStringElems env rest
    (r.1, none :: r.2)
  | some js :: rest =>
    let c := convertString env js
    let r := convertStringElems c.1 rest
    (r.1, c.2 :: r.2)

/-- Modelled from the spec: `convertStringArray` (JNIUtils, not in the translated
file) converts a managed sequence of text values to an owned array of owned native
null-terminated sequences.  The specification gives it no failure mode, so the result
is never NULL. -/
def convertStringArray {σ : Type} (env : Env σ) (jsa : List (Option String)) :
    Env σ × Option CStringArray :=
  let r := convertStringElems
    { env with live := env.live ++ [env.nextAddr], nextAddr := env.nextAddr + 1 } jsa
  (r.1, some ⟨env.nextAddr, r.2⟩)

/-- The statement `delete[] p` on a string or string array: releases the allocation at
`p`; nothing happens for NULL. -/
def deleteArray {σ : Type} (env : Env σ) (p : Option Nat) : Env σ :=
  match p with
  | none => env
  | some a => { env with live := env.live.filter (fun b => b ≠ a) }

/-- Modelled from the spec: `deleteStringArray` (JNIUtils, not in the translated
file) is the deallocation matching `convertStringArray`: it releases the first
`length` strings of the array and the array; nothing happens for NULL. -/
def deleteStringArray {σ : Type} (env : Env σ) (array : Option CStringArray) (length : Int) :
    Env σ :=
  match array with
  | none => env
  | some arr =>
    deleteArray
      ((arr.elems.take length.toNat).foldl
        (fun e c => deleteArray e (c.map CString.addr)) env)
      (some arr.addr)

/-- The expression `new char[n]`.  When the C++ runtime can provide `n` bytes the
result is a fresh buffer of exactly `n` bytes; the pointer is never NULL, so the inner
value is always `some`.  When it cannot, `std::bad_alloc` is thrown and nothing is
allocated: the result is `none`. -/
def newCharArray {σ : Type} (C : Collab σ) (env : Env σ) (n : Nat) :
    Option (Env σ × Option Buffer) :=
  if C.operatorNewArray n = true then
    some ({ env with buffers := env.buffers ++ [⟨env.nextAddr, n⟩],
                     liveBuffers := env.liveBuffers ++ [env.nextAddr],
                     nextAddr := env.nextAddr + 1 },
      some ⟨env.nextAddr, n⟩)
  else none

/-- The statement `delete[] p` on an output buffer. -/
def deleteBuffer {σ : Type} (env : Env σ) (b : Buffer) : Env σ :=
  { env with liveBuffers := env.liveBuffers.filter (fun a => a ≠ b.addr) }

/-- Modelled from the spec: `set` (JNIUtils, not in the translated file) stores a
value into a slot of a managed primitive array; a slot outside the array raises an
exception and yields `false`. -/
def set {σ : Type} (env : Env σ) (ja : List Int) (index : Nat) (value : Int) :
    Env σ × List Int × Bool :=
  if index < ja.length then (env, ja.set index value, true)
  else (ThrowByName env "java/lang/ArrayIndexOutOfBoundsException"
          "Array index out of bounds", ja, false)

/-- The JNI function `SetObjectArrayElement` on a string array. -/
def SetObjectArrayElement (array : List (Option String)) (index : Nat) (value : String) :
    List (Option String) :=
  array.set index (some value)

/-! ## Results of the entry points -/

/-- Outcome of `nvrtcVersionNative`: returned code, environment, and both arrays. -/
structure VersionOut (σ : Type) where
  ret : Int
  env : Env σ
  major : Option (List Int)
  minor : Option (List Int)

/-- Outcome of an entry point whose only managed object is the handle. -/
structure ProgOut (σ : Type) where
  ret : Int
  env : Env σ
  prog : Option NativePointerObject

/-- Outcome of a size query: returned code, environment, handle, size array. -/
structure SizeOut (σ : Type) where
  ret : Int
  env : Env σ
  prog : Option NativePointerObject
  sizeRet : Option (List Int)

/-- Outcome of an entry point with an output-slot string array. -/
structure TextOut (σ : Type) where
  ret : Int
  env : Env σ
  prog : Option NativePointerObject
  slots : Option (List (Option String))

/-- Outcome of a two-phase fetch.  `ret` is the returned code; it is `none` when
`std::bad_alloc` leaves the entry point, in which case no value is returned and the
other components describe the moment the exception is thrown. -/
structure FetchOut (σ : Type) where
  ret : Option Int
  env : Env σ
  prog : Option NativePointerObject
  slots : Option (List (Option String))

/-! ## The entry points of `JNvrtc.cpp` -/

/-- The environment after a call into the wrapped library: the call is recorded and
the library state replaced by the one the call left. -/
def Env.called {σ : Type} (env : Env σ) (c : NativeCall) (s : σ) : Env σ :=
  { env with native := s, calls := env.calls ++ [c] }

/-- The text of a nullable native string. -/
def charsOf (p : Option CString) : Option String := p.map CString.chars

/-- The texts of a nullable native string array. -/
def elemsOf (p : Option CStringArray) : Option (List (Option String)) :=
  p.map (fun a => a.elems.map charsOf)

/-- Entry point `nvrtcGetErrorStringNative` (lines 78-91). -/
def Java_CUDAWrapper_nvrtc_JNvrtc_nvrtcGetErrorStringNative {σ : Type} (C : Collab σ)
    (env : Env σ) (result : Int) : Option String × Env σ :=
  let env1 := Logger.log env LOG_TRACE "Executing nvrtcGetErrorString\n"
  let nativeString := C.nvrtcGetErrorString result
  let env2 := env1.called (NativeCall.nvrtcGetErrorString result) env1.native
  match nativeString with
  | none => (none, env2)
  | some str => (C.NewStringUTF (some str), env2)

/-- Entry point `nvrtcVersionNative` (lines 98-122). -/
def Java_CUDAWrapper_nvrtc_JNvrtc_nvrtcVersionNative {σ : Type} (C : Collab σ)
    (env : Env σ) (major minor : Option (List Int)) : VersionOut σ :=
  match major with
  | none =>
    ⟨C.CUDA_INTERNAL_ERROR,
      ThrowByName env "java/lang/NullPointerException"
        "Parameter 'major' is null for nvrtcVersion", major, minor⟩
  | some majorArr =>
  match minor with
  | none =>
    ⟨C.CUDA_INTERNAL_ERROR,
      ThrowByName env "java/lang/NullPointerException"
        "Parameter 'minor' is null for nvrtcVersion", major, minor⟩
  | some minorArr =>
    let env1 := Logger.log env LOG_TRACE "Executing nvrtcVersion\n"
    let r := C.nvrtcVersion env1.native
    let env2 := env1.called NativeCall.nvrtcVersion r.state
    let s1 := set env2 majorArr 0 r.out.1
    if s1.2.2 = false then ⟨C.CUDA_INTERNAL_ERROR, s1.1, some s1.2.1, minor⟩
    else
      let s2 := set s1.1 minorArr 0 r.out.2
      if s2.2.2 = false then ⟨C.CUDA_INTERNAL_ERROR, s2.1, some s1.2.1, some s2.2.1⟩
      else ⟨r.result, s2.1, some s1.2.1, some s2.2.1⟩

/-- Entry point `nvrtcCreateProgramNative` (lines 129-197). -/
def Java_CUDAWrapper_nvrtc_JNvrtc_nvrtcCreateProgramNative {σ : Type} (C : Collab σ)
    (env : Env σ) (prog : Option NativePointerObject) (src name : Option String)
    (numHeaders : Int) (headers includeNames : Option (List (Option String))) : ProgOut σ :=
  match prog with
  | none =>
    ⟨C.CUDA_INTERNAL_ERROR,
      ThrowByName env "java/lang/NullPointerException"
        "Parameter 'prog' is null for nvrtcCreateProgram", prog⟩
  | some p =>
  match src with
  | none =>
    ⟨C.CUDA_INTERNAL_ERROR,
      ThrowByName env "java/lang/NullPointerException"
        "Parameter 'src' is null for nvrtcCreateProgram", prog⟩
  | some srcStr =>
    let env1 := Logger.log env LOG_TRACE "Executing nvrtcCreateProgram\n"
    let nativeProg := getNativePointerValue p
    let cs := convertString env1 srcStr
    let nativeSrc := cs.2
    let cn : Env σ × Option CString :=
      match name with
      | none => (cs.1, none)
      | some nameStr => convertString cs.1 nameStr
    let nativeName := cn.2
    -- lines 154-169; `none` stands for the length mismatch of line 158
    let hdr : Option (Env σ × Option CStringArray) :=
      match headers with
      | none => some (cn.1, none)
      | some h =>
        if (h.length : Int) ≠ numHeaders then none
        else some (convertStringArray cn.1 h)
    match hdr with
    | none =>
      ⟨C.CUDA_INTERNAL_ERROR,
        ThrowByName cn.1 "java/lang/IllegalArgumentException"
          "The headers array length must be numHeaders", prog⟩
    | some (env2, nativeHeaders) =>
    -- lines 165-168
    if headers.isSome ∧ nativeHeaders.isNone then ⟨C.CUDA_INTERNAL_ERROR, env2, prog⟩
    else
    -- lines 170-185; `none` stands for the length mismatch of line 174
    let inc : Option (Env σ × Option CStringArray) :=
      match includeNames with
      | none => some (env2, none)
      | some i =>
        if (i.length : Int) ≠ numHeaders then none
        else some (convertStringArray env2 i)
    match inc with
    | none =>
      ⟨C.CUDA_INTERNAL_ERROR,
        ThrowByName env2 "java/lang/IllegalArgumentException"
          "The includeNames array length must be numHeaders", prog⟩
    | some (env3, nativeIncludeNames) =>
    -- lines 181-184
    if includeNames.isSome ∧ nativeIncludeNames.isNone then
      ⟨C.CUDA_INTERNAL_ERROR, env3, prog⟩
    else
    let r := C.nvrtcCreateProgram env3.native nativeProg (charsOf nativeSrc)
      (charsOf nativeName) numHeaders (elemsOf nativeHeaders) (elemsOf nativeIncludeNames)
    let env4 := env3.called (NativeCall.nvrtcCreateProgram nativeProg numHeaders) r.state
    let w := setNativePointerValue env4 p r.out
    let env5 := deleteArray w.1 (nativeSrc.map CString.addr)
    let env6 := deleteArray env5 (nativeName.map CString.addr)
    let env7 := deleteStringArray env6 nativeHeaders numHeaders
    let env8 := deleteStringArray env7 nativeIncludeNames numHeaders
    ⟨r.result, env8, some w.2⟩

/-- Entry point `nvrtcDestroyProgramNative` (lines 204-221). -/
def Java_CUDAWrapper_nvrtc_JNvrtc_nvrtcDestroyProgramNative {σ : Type} (C : Collab σ)
    (env : Env σ) (prog : Option NativePointerObject) : ProgOut σ :=
  match prog with
  | none =>
    ⟨C.CUDA_INTERNAL_ERROR,
      ThrowByName env "java/lang/NullPointerException"
        "Parameter 'prog' is null for nvrtcDestroyProgram", prog⟩
  | some p =>
    let env1 := Logger.log env LOG_TRACE "Executing nvrtcDestroyProgram\n"
    let nativeProg := getNativePointerValue p
    let r := C.nvrtcDestroyProgram env1.native nativeProg
    let env2 := env1.called (NativeCall.nvrtcDestroyProgram nativeProg) r.state
    let w := setNativePointerValue env2 p r.out
    ⟨r.result, w.1, some w.2⟩

/-- Entry point `nvrtcCompileProgramNative` (lines 228-264). -/
def Java_CUDAWrapper_nvrtc_JNvrtc_nvrtcCompileProgramNative {σ : Type} (C : Collab σ)
    (env : Env σ) (prog : Option NativePointerObject) (numOptions : Int)
    (options : Option (List (Option String))) : ProgOut σ :=
  match prog with
  | none =>
    ⟨C.CUDA_INTERNAL_ERROR,
      ThrowByName env "java/lang/NullPointerException"
        "Parameter 'prog' is null for nvrtcCompileProgram", prog⟩
  | some p =>
    let env1 := Logger.log env LOG_TRACE "Executing nvrtcCompileProgram\n"
    let nativeProg := getNativePointerValue p
    -- lines 241-256; `none` stands for the length mismatch of line 245
    let opt : Option (Env σ × Option CStringArray) :=
      match options with
      | none => some (env1, none)
      | some o =>
        if (o.length : Int) ≠ numOptions then none
        else some (convertStringArray env1 o)
    match opt with
    | none =>
      ⟨C.CUDA_INTERNAL_ERROR,
        ThrowByName env1 "java/lang/IllegalArgumentException"
          "The options array length must be numOptions", prog⟩
    | some (env2, nativeOptions) =>
    if options.isSome ∧ nativeOptions.isNone then ⟨C.CUDA_INTERNAL_ERROR, env2, prog⟩
    else
    let r := C.nvrtcCompileProgram env2.native nativeProg numOptions (elemsOf nativeOptions)
    let env3 := env2.called (NativeCall.nvrtcCompileProgram nativeProg numOptions) r.state
    let w := setNativePointerValue env3 p nativeProg
    let env4 := deleteStringArray w.1 nativeOptions numOptions
    ⟨r.result, env4, some w.2⟩

/-- Entry point `nvrtcGetPTXSizeNative` (lines 271-294). -/
def Java_CUDAWrapper_nvrtc_JNvrtc_nvrtcGetPTXSizeNative {σ : Type} (C : Collab σ)
    (env : Env σ) (prog : Option NativePointerObject) (ptxSizeRet : Option (List Int)) :
    SizeOut σ :=
  match prog with
  | none =>
    ⟨C.CUDA_INTERNAL_ERROR,
      ThrowByName env "java/lang/NullPointerException"
        "Parameter 'prog' is null for nvrtcGetPTXSize", prog, ptxSizeRet⟩
  | some p =>
  match ptxSizeRet with
  | none =>
    ⟨C.CUDA_INTERNAL_ERROR,
      ThrowByName env "java/lang/NullPointerException"
        "Parameter 'ptxSizeRet' is null for nvrtcGetPTXSize", prog, ptxSizeRet⟩
  | some sizeArr =>
    let env1 := Logger.log env LOG_TRACE "Executing nvrtcGetPTXSize\n"
    let nativeProg := getNativePointerValue p
    let r := C.nvrtcGetPTXSize env1.native nativeProg
    let env2 := env1.called (NativeCall.nvrtcGetPTXSize nativeProg) r.state
    let s1 := set env2 sizeArr 0 (toJlong r.out)
    if s1.2.2 = false then ⟨C.CUDA_INTERNAL_ERROR, s1.1, prog, some s1.2.1⟩
    else ⟨r.result, s1.1, prog, some s1.2.1⟩

/-- Entry point `nvrtcGetPTXNative` (lines 301-351): the two-phase fetch.  No
`try` surrounds the `new char[]`, so a `std::bad_alloc` leaves the entry point. -/
def Java_CUDAWrapper_nvrtc_JNvrtc_nvrtcGetPTXNative {σ : Type} (C : Collab σ)
    (env : Env σ) (prog : Option NativePointerObject)
    (ptx : Option (List (Option String))) : FetchOut σ :=
  match prog with
  | none =>
    ⟨some C.CUDA_INTERNAL_ERROR,
      ThrowByName env "java/lang/NullPointerException"
        "Parameter 'prog' is null for nvrtcGetPTX", prog, ptx⟩
  | some p =>
  match ptx with
  | none =>
    ⟨some C.CUDA_INTERNAL_ERROR,
      ThrowByName env "java/lang/NullPointerException"
        "Parameter 'ptx' is null for nvrtcGetPTX", prog, ptx⟩
  | some slots =>
    let env1 := Logger.log env LOG_TRACE "Executing nvrtcGetPTX\n"
    let length := slots.length
    if length = 0 then
      ⟨some C.CUDA_INTERNAL_ERROR,
        ThrowByName env1 "java/lang/IllegalArgumentException"
          "String array must at least have length 1", prog, ptx⟩
    else
    let nativeProg := getNativePointerValue p
    let q := C.nvrtcGetPTXSize env1.native nativeProg
    let env2 := env1.called (NativeCall.nvrtcGetPTXSize nativeProg) q.state
    let nativeSizeRet := toSizeT q.out
    if q.result ≠ NVRTC_SUCCESS then ⟨some q.result, env2, prog, ptx⟩
    else
    match newCharArray C env2 nativeSizeRet with
    | none => ⟨none, env2, prog, ptx⟩
    | some a =>
    match a.2 with
    | none =>
      ⟨some C.CUDA_INTERNAL_ERROR,
        ThrowByName a.1 "java/lang/OutOfMemoryError"
          "Out of memory while creating result string", prog, ptx⟩
    | some buffer =>
      let r := C.nvrtcGetPTX a.1.native nativeProg buffer
      let env3 := a.1.called (NativeCall.nvrtcGetPTX nativeProg buffer) r.state
      let element := C.NewStringUTF (some r.out)
      let env4 := deleteBuffer env3 buffer
      match element with
      | none =>
        ⟨some C.CUDA_INTERNAL_ERROR,
          ThrowByName env4 "java/lang/OutOfMemoryError"
            "Out of memory while creating result string", prog, ptx⟩
      | some str =>
        ⟨some r.result, env4, prog, some (SetObjectArrayElement slots 0 str)⟩

/-- Entry point `nvrtcGetProgramLogSizeNative` (lines 358-382). -/
def Java_CUDAWrapper_nvrtc_JNvrtc_nvrtcGetProgramLogSizeNative {σ : Type} (C : Collab σ)
    (env : Env σ) (prog : Option NativePointerObject) (logSizeRet : Option (List Int)) :
    SizeOut σ :=
  match prog with
  | none =>
    ⟨C.CUDA_INTERNAL_ERROR,
      ThrowByName env "java/lang/NullPointerException"
        "Parameter 'prog' is null for nvrtcGetProgramLogSize", prog, logSizeRet⟩
  | some p =>
  match logSizeRet with
  | none =>
    ⟨C.CUDA_INTERNAL_ERROR,
      ThrowByName env "java/lang/NullPointerException"
        "Parameter 'logSizeRet' is null for nvrtcGetProgramLogSize", prog, logSizeRet⟩
  | some sizeArr =>
    let env1 := Logger.log env LOG_TRACE "Executing nvrtcGetProgramLogSize\n"
    let nativeProg := getNativePointerValue p
    let r := C.nvrtcGetProgramLogSize env1.native nativeProg
    let env2 := env1.called (NativeCall.nvrtcGetProgramLogSize nativeProg) r.state
    let s1 := set env2 sizeArr 0 (toJlong r.out)
    if s1.2.2 = false then ⟨C.CUDA_INTERNAL_ERROR, s1.1, prog, some s1.2.1⟩
    else ⟨r.result, s1.1, prog, some s1.2.1⟩

/-- Entry point `nvrtcGetProgramLogNative` (lines 389-440): the two-phase fetch.  No
`try` surrounds the `new char[]`, so a `std::bad_alloc` leaves the entry point. -/
def Java_CUDAWrapper_nvrtc_JNvrtc_nvrtcGetProgramLogNative {σ : Type} (C : Collab σ)
    (env : Env σ) (prog : Option NativePointerObject)
    (log : Option (List (Option String))) : FetchOut σ :=
  match prog with
  | none =>
    ⟨some C.CUDA_INTERNAL_ERROR,
      ThrowByName env "java/lang/NullPointerException"
        "Parameter 'prog' is null for nvrtcGetProgramLog", prog, log⟩
  | some p =>
  match log with
  | none =>
    ⟨some C.CUDA_INTERNAL_ERROR,
      ThrowByName env "java/lang/NullPointerException"
        "Parameter 'log' is null for nvrtcGetProgramLog", prog, log⟩
  | some slots =>
    let env1 := Logger.log env LOG_TRACE "Executing nvrtcGetProgramLog\n"
    let length := slots.length
    if length = 0 then
      ⟨some C.CUDA_INTERNAL_ERROR,
        ThrowByName env1 "java/lang/IllegalArgumentException"
          "String array must at least have length 1", prog, log⟩
    else
    let nativeProg := getNativePointerValue p
    let q := C.nvrtcGetProgramLogSize env1.native nativeProg
    let env2 := env1.called (NativeCall.nvrtcGetProgramLogSize nativeProg) q.state
    let nativeSizeRet := toSizeT q.out
    if q.result ≠ NVRTC_SUCCESS then ⟨some q.result, env2, prog, log⟩
    else
    match newCharArray C env2 nativeSizeRet with
    | none => ⟨none, env2, prog, log⟩
    | some a =>
    match a.2 with
    | none =>
      ⟨some C.CUDA_INTERNAL_ERROR,
        ThrowByName a.1 "java/lang/OutOfMemoryError"
          "Out of memory while creating result string", prog, log⟩
    | some buffer =>
      let r := C.nvrtcGetProgramLog a.1.native nativeProg buffer
      let env3 := a.1.called (NativeCall.nvrtcGetProgramLog nativeProg buffer) r.state
      let element := C.NewStringUTF (some r.out)
      let env4 := deleteBuffer env3 buffer
      match element with
      | none =>
        ⟨some C.CUDA_INTERNAL_ERROR,
          ThrowByName env4 "java/lang/OutOfMemoryError"
            "Out of memory while creating result string", prog, log⟩
      | some str =>
        ⟨some r.result, env4, prog, some (SetObjectArrayElement slots 0 str)⟩

/-- Entry point `nvrtcAddNameExpressionNative` (lines 448-473). -/
def Java_CUDAWrapper_nvrtc_JNvrtc_nvrtcAddNameExpressionNative {σ : Type} (C : Collab σ)
    (env : Env σ) (prog : Option NativePointerObject) (name_expression : Option String) :
    ProgOut σ :=
  match prog with
  | none =>
    ⟨C.CUDA_INTERNAL_ERROR,
      ThrowByName env "java/lang/NullPointerException"
        "Parameter 'prog' is null for nvrtcAddNameExpression", prog⟩
  | some p =>
  match name_expression with
  | none =>
    ⟨C.CUDA_INTERNAL_ERROR,
      ThrowByName env "java/lang/NullPointerException"
        "Parameter 'name_expression' is null for nvrtcAddNameExpression", prog⟩
  | some expr =>
    let env1 := Logger.log env LOG_TRACE "Executing nvrtcAddNameExpression\n"
    let nativeProg := getNativePointerValue p
    let cs := convertString env1 expr
    let nativeName_expression := cs.2
    let r := C.nvrtcAddNameExpression cs.1.native nativeProg (charsOf nativeName_expression)
    let env2 := cs.1.called
      (NativeCall.nvrtcAddNameExpression nativeProg (charsOf nativeName_expression)) r.state
    let env3 := deleteArray env2 (nativeName_expression.map CString.addr)
    ⟨r.result, env3, prog⟩

/-- Entry point `nvrtcGetLoweredNameNative` (lines 480-528).  The return at line 522
comes before the `delete[]` of line 526. -/
def Java_CUDAWrapper_nvrtc_JNvrtc_nvrtcGetLoweredNameNative {σ : Type} (C : Collab σ)
    (env : Env σ) (prog : Option NativePointerObject) (name_expression : Option String)
    (lowered_name : Option (List (Option String))) : TextOut σ :=
  match prog with
  | none =>
    ⟨C.CUDA_INTERNAL_ERROR,
      ThrowByName env "java/lang/NullPointerException"
        "Parameter 'prog' is null for nvrtcGetLoweredName", prog, lowered_name⟩
  | some p =>
  match name_expression with
  | none =>
    ⟨C.CUDA_INTERNAL_ERROR,
      ThrowByName env "java/lang/NullPointerException"
        "Parameter 'name_expression' is null for nvrtcGetLoweredName", prog, lowered_name⟩
  | some expr =>
  match lowered_name with
  | none =>
    ⟨C.CUDA_INTERNAL_ERROR,
      ThrowByName env "java/lang/NullPointerException"
        "Parameter 'lowered_name' is null for nvrtcGetLoweredName", prog, lowered_name⟩
  | some slots =>
    let length := slots.length
    if length = 0 then
      ⟨C.CUDA_INTERNAL_ERROR,
        ThrowByName env "java/lang/IllegalArgumentException"
          "String array lowered_name must at least have length 1", prog, lowered_name⟩
    else
    let env1 := Logger.log env LOG_TRACE "Executing nvrtcGetLoweredName\n"
    let nativeProg := getNativePointerValue p
    let cs := convertString env1 expr
    let nativeName_expression := cs.2
    let r := C.nvrtcGetLoweredName cs.1.native nativeProg (charsOf nativeName_expression)
    let env2 := cs.1.called
      (NativeCall.nvrtcGetLoweredName nativeProg (charsOf nativeName_expression)) r.state
    let lowered_nameElement := C.NewStringUTF r.out
    match lowered_nameElement with
    | none =>
      ⟨C.CUDA_INTERNAL_ERROR,
        ThrowByName env2 "java/lang/OutOfMemoryError"
          "Out of memory while creating result string", prog, lowered_name⟩
    | some str =>
      let env3 := deleteArray env2 (nativeName_expression.map CString.addr)
      ⟨r.result, env3, prog, some (SetObjectArrayElement slots 0 str)⟩

/-! ## Specification vocabulary -/

/-- The null-argument failure for parameter `param` of operation `op`: its message
names both. -/
def nullPointerException (param op : String) : Throwable :=
  ⟨"java/lang/NullPointerException", "Parameter '" ++ param ++ "' is null for " ++ op⟩

/-- The invalid-argument failure with the given message. -/
def illegalArgumentException (message : String) : Throwable :=
  ⟨"java/lang/IllegalArgumentException", message⟩

/-- The allocation failure raised when the result string cannot be built. -/
def outOfMemoryError : Throwable :=
  ⟨"java/lang/OutOfMemoryError", "Out of memory while creating result string"⟩

/-- The environment of a call that was entered with library state `s` and did nothing
but raise the throwable `t`: no library call, library state `s`, no write to the handle
field, no allocation. -/
def Env.rejected {σ : Type} (s : σ) (t : Throwable) : Env σ :=
  { native := s, calls := [], thrown := [t], writes := [], live := [],
    buffers := [], liveBuffers := [], nextAddr := 0 }

/-- A nullable managed array agrees with a declared count: it is absent, or its length
is the count. -/
def lengthOk (array : Option (List (Option String))) (count : Int) : Prop :=
  ∀ l, array = some l → (l.length : Int) = count

/-- The addresses owned by a native string array: the array and its non-NULL entries. -/
def CStringArray.addrs (arr : CStringArray) : List Nat :=
  arr.addr :: arr.elems.filterMap (Option.map CString.addr)

/-- The addresses allocated by `convertStringArray` for the managed array `l` in the
environment `e`. -/
def convertedAddrs {σ : Type} (e : Env σ) (l : List (Option String)) : List Nat :=
  match (convertStringArray e l).2 with
  | none => []
  | some arr => arr.addrs

/-! ## A small instance of the collaborators, for concrete runs -/

/-- A toy library whose state counts the calls that changed it.  Every function
succeeds; create hands out the reference 4096, destroy resets the reference to 0.  The
C++ runtime can provide any buffer below `2 ^ 32` bytes and no other. -/
def toyCollab : Collab Nat :=
  { CUDA_INTERNAL_ERROR := -2147483647
    NewStringUTF := fun p => p
    operatorNewArray := fun n => decide (n < 2 ^ 32)
    nvrtcGetErrorString := fun r => if r = 0 then some "NVRTC_SUCCESS" else none
    nvrtcVersion := fun s => ⟨s, 0, (8, 0)⟩
    nvrtcCreateProgram := fun s _ _ _ _ _ _ => ⟨s + 1, 0, 4096⟩
    nvrtcDestroyProgram := fun s _ => ⟨s + 1, 0, 0⟩
    nvrtcCompileProgram := fun s _ _ _ => ⟨s + 1, 0, ()⟩
    nvrtcGetPTXSize := fun s _ => ⟨s, 0, 5⟩
    nvrtcGetPTX := fun s _ _ => ⟨s, 0, ".ptx"⟩
    nvrtcGetProgramLogSize := fun s _ => ⟨s, 0, 1⟩
    nvrtcGetProgramLog := fun s _ _ => ⟨s, 0, ""⟩
    nvrtcAddNameExpression := fun s _ _ => ⟨s + 1, 0, ()⟩
    nvrtcGetLoweredName := fun s _ _ => ⟨s, 0, some "_Z1fIiEvv"⟩ }

/-- The toy library in a managed runtime that cannot build any string. -/
def toyCollabNoString : Collab Nat :=
  { toyCollab with NewStringUTF := fun _ => none }

/-- The toy library with every size query failing with code 4. -/
def toyCollabNoSize : Collab Nat :=
  { toyCollab with
    nvrtcGetPTXSize := fun s _ => ⟨s, 4, 0⟩
    nvrtcGetProgramLogSize := fun s _ => ⟨s, 4, 0⟩ }

/-- The toy library with both size queries succeeding and reporting `2 ^ 62` bytes, more
than the C++ runtime can provide. -/
def toyCollabHuge : Collab Nat :=
  { toyCollab with
    nvrtcGetPTXSize := fun s _ => ⟨s, 0, 2 ^ 62⟩
    nvrtcGetProgramLogSize := fun s _ => ⟨s, 0, 2 ^ 62⟩ }

/-! ## Frame lemmas for the marshaling helpers -/

/-- The part of an environment that marshaling never touches. -/
def Env.frame {σ : Type} (e : Env σ) :
    σ × List NativeCall × List Throwable × List Int × List Buffer × List Nat :=
  (e.native, e.calls, e.thrown, e.writes, e.buffers, e.liveBuffers)

theorem frame_native {σ : Type} {e e1 : Env σ} (h : e1.frame = e.frame) :
    e1.native = e.native := congrArg (fun t => t.1) h

theorem frame_calls {σ : Type} {e e1 : Env σ} (h : e1.frame = e.frame) :
    e1.calls = e.calls := congrArg (fun t => t.2.1) h

theorem frame_thrown {σ : Type} {e e1 : Env σ} (h : e1.frame = e.frame) :
    e1.thrown = e.thrown := congrArg (fun t => t.2.2.1) h

theorem frame_writes {σ : Type} {e e1 : Env σ} (h : e1.frame = e.frame) :
    e1.writes = e.writes := congrArg (fun t => t.2.2.2.1) h

theorem frame_buffers {σ : Type} {e e1 : Env σ} (h : e1.frame = e.frame) :
    e1.buffers = e.buffers := congrArg (fun t => t.2.2.2.2.1) h

theorem convertString_frame {σ : Type} (e : Env σ) (js : String) :
    (convertString e js).1.frame = e.frame := rfl

theorem convertStringElems_frame {σ : Type} (l : List (Option String)) (e : Env σ) :
    (convertStringElems e l).1.frame = e.frame := by
  induction l generalizing e with
  | nil => rfl
  | cons x rest ih =>
    cases x with
    | none => simpa [convertStringElems] using ih e
    | some js =>
      simp only [convertStringElems]
      rw [ih]
      rfl

theorem convertStringElems_chars {σ : Type} (l : List (Option String)) (e : Env σ) :
    (convertStringElems e l).2.map charsOf = l := by
  induction l generalizing e with
  | nil => rfl
  | cons x rest ih =>
    cases x with
    | none => simp [convertStringElems, ih, charsOf]
    | some js => simp [convertStringElems, ih, charsOf, convertString]

theorem convertStringArray_frame {σ : Type} (l : List (Option String)) (e : Env σ) :
    (convertStringArray e l).1.frame = e.frame := by
  simp only [convertStringArray]
  rw [convertStringElems_frame]
  rfl

theorem convertStringArray_isSome {σ : Type} (l : List (Option String)) (e : Env σ) :
    (convertStringArray e l).2.isSome = true := rfl

@[simp] theorem convertStringArray_chars {σ : Type} (l : List (Option String)) (e : Env σ) :
    elemsOf (convertStringArray e l).2 = some l := by
  simp [convertStringArray, elemsOf, convertStringElems_chars]

theorem deleteArray_frame {σ : Type} (e : Env σ) (p : Option Nat) :
    (deleteArray e p).frame = e.frame := by
  cases p <;> rfl

theorem deleteElems_frame {σ : Type} (l : List (Option CString)) (e : Env σ) :
    (l.foldl (fun e c => deleteArray e (c.map CString.addr)) e).frame = e.frame := by
  induction l generalizing e with
  | nil => rfl
  | cons x rest ih =>
    simp only [List.foldl_cons]
    rw [ih, deleteArray_frame]

theorem deleteStringArray_frame {σ : Type} (e : Env σ) (a : Option CStringArray) (n : Int) :
    (deleteStringArray e a n).frame = e.frame := by
  cases a with
  | none => rfl
  | some arr =>
    simp only [deleteStringArray]
    rw [deleteArray_frame, deleteElems_frame]

@[simp] theorem convertString_native {σ : Type} (e : Env σ) (js : String) :
    (convertString e js).1.native = e.native := frame_native (convertString_frame e js)

@[simp] theorem convertString_calls {σ : Type} (e : Env σ) (js : String) :
    (convertString e js).1.calls = e.calls := frame_calls (convertString_frame e js)

@[simp] theorem convertString_thrown {σ : Type} (e : Env σ) (js : String) :
    (convertString e js).1.thrown = e.thrown := frame_thrown (convertString_frame e js)

@[simp] theorem convertString_writes {σ : Type} (e : Env σ) (js : String) :
    (convertString e js).1.writes = e.writes := frame_writes (convertString_frame e js)

@[simp] theorem convertString_buffers {σ : Type} (e : Env σ) (js : String) :
    (convertString e js).1.buffers = e.buffers := frame_buffers (convertString_frame e js)

@[simp] theorem convertStringArray_native {σ : Type} (e : Env σ) (l : List (Option String)) :
    (convertStringArray e l).1.native = e.native := frame_native (convertStringArray_frame l e)

@[simp] theorem convertStringArray_calls {σ : Type} (e : Env σ) (l : List (Option String)) :
    (convertStringArray e l).1.calls = e.calls := frame_calls (convertStringArray_frame l e)

@[simp] theorem convertStringArray_thrown {σ : Type} (e : Env σ) (l : List (Option String)) :
    (convertStringArray e l).1.thrown = e.thrown := frame_thrown (convertStringArray_frame l e)

@[simp] theorem convertStringArray_writes {σ : Type} (e : Env σ) (l : List (Option String)) :
    (convertStringArray e l).1.writes = e.writes := frame_writes (convertStringArray_frame l e)

@[simp] theorem convertStringArray_buffers {σ : Type} (e : Env σ) (l : List (Option String)) :
    (convertStringArray e l).1.buffers = e.buffers := frame_buffers (convertStringArray_frame l e)

@[simp] theorem deleteArray_native {σ : Type} (e : Env σ) (p : Option Nat) :
    (deleteArray e p).native = e.native := frame_native (deleteArray_frame e p)

@[simp] theorem deleteArray_calls {σ : Type} (e : Env σ) (p : Option Nat) :
    (deleteArray e p).calls = e.calls := frame_calls (deleteArray_frame e p)

@[simp] theorem deleteArray_thrown {σ : Type} (e : Env σ) (p : Option Nat) :
    (deleteArray e p).thrown = e.thrown := frame_thrown (deleteArray_frame e p)

@[simp] theorem deleteArray_writes {σ : Type} (e : Env σ) (p : Option Nat) :
    (deleteArray e p).writes = e.writes := frame_writes (deleteArray_frame e p)

@[simp] theorem deleteArray_buffers {σ : Type} (e : Env σ) (p : Option Nat) :
    (deleteArray e p).buffers = e.buffers := frame_buffers (deleteArray_frame e p)

@[simp] theorem deleteStringArray_native {σ : Type} (e : Env σ) (a : Option CStringArray) (n : Int)
    :
    (deleteStringArray e a n).native = e.native := frame_native (deleteStringArray_frame e a n)

@[simp] theorem deleteStringArray_calls {σ : Type} (e : Env σ) (a : Option CStringArray) (n : Int) :
    (deleteStringArray e a n).calls = e.calls := frame_calls (deleteStringArray_frame e a n)

@[simp] theorem deleteStringArray_thrown {σ : Type} (e : Env σ) (a : Option CStringArray) (n : Int)
    :
    (deleteStringArray e a n).thrown = e.thrown := frame_thrown (deleteStringArray_frame e a n)

@[simp] theorem deleteStringArray_writes {σ : Type} (e : Env σ) (a : Option CStringArray) (n : Int)
    :
    (deleteStringArray e a n).writes = e.writes := frame_writes (deleteStringArray_frame e a n)

@[simp] theorem deleteStringArray_buffers {σ : Type} (e : Env σ) (a : Option CStringArray) (n : Int)
    :
    (deleteStringArray e a n).buffers = e.buffers := frame_buffers (deleteStringArray_frame e a n)

@[simp] theorem convertString_chars {σ : Type} (e : Env σ) (js : String) :
    charsOf (convertString e js).2 = some js := rfl

@[simp] theorem charsOf_none : charsOf none = none := rfl

@[simp] theorem elemsOf_none : elemsOf none = none := rfl

@[simp] theorem convertStringArray_ne_none {σ : Type} (l : List (Option String)) (e : Env σ) :
    ((convertStringArray e l).2 = none) = False := by
  simp [convertStringArray]

/-! ## Shape lemmas for create and compile -/

/-- Shape of `nvrtcCreateProgram` when the supplied `headers` array has the wrong
length. -/
theorem createProgram_headers_mismatch {σ : Type} (C : Collab σ) (env : Env σ)
    (p : NativePointerObject) (src : String) (name : Option String) (numHeaders : Int)
    (h : List (Option String)) (includeNames : Option (List (Option String)))
    (hl : (h.length : Int) ≠ numHeaders) :
    ∃ E : Env σ, E.frame = env.frame ∧
      Java_CUDAWrapper_nvrtc_JNvrtc_nvrtcCreateProgramNative C env (some p) (some src) name
          numHeaders (some h) includeNames
        = ⟨C.CUDA_INTERNAL_ERROR,
            ThrowByName E "java/lang/IllegalArgumentException"
              "The headers array length must be numHeaders", some p⟩ := by
  cases name with
  | none =>
    refine ⟨(convertString env src).1, convertString_frame _ _, ?_⟩
    simp [Java_CUDAWrapper_nvrtc_JNvrtc_nvrtcCreateProgramNative, hl, Logger.log]
  | some n =>
    refine ⟨(convertString (convertString env src).1 n).1, ?_, ?_⟩
    · rw [convertString_frame, convertString_frame]
    · simp [Java_CUDAWrapper_nvrtc_JNvrtc_nvrtcCreateProgramNative, hl, Logger.log]

/-- Shape of `nvrtcCreateProgram` when `headers` passes the length check and the supplied
`includeNames` array has the wrong length. -/
theorem createProgram_includeNames_mismatch {σ : Type} (C : Collab σ) (env : Env σ)
    (p : NativePointerObject) (src : String) (name : Option String) (numHeaders : Int)
    (headers : Option (List (Option String))) (i : List (Option String))
    (hh : lengthOk headers numHeaders) (hl : (i.length : Int) ≠ numHeaders) :
    ∃ E : Env σ, E.frame = env.frame ∧
      Java_CUDAWrapper_nvrtc_JNvrtc_nvrtcCreateProgramNative C env (some p) (some src) name
          numHeaders headers (some i)
        = ⟨C.CUDA_INTERNAL_ERROR,
            ThrowByName E "java/lang/IllegalArgumentException"
              "The includeNames array length must be numHeaders", some p⟩ := by
  cases name with
  | none =>
    cases headers with
    | none =>
      refine ⟨(convertString env src).1, convertString_frame _ _, ?_⟩
      simp [Java_CUDAWrapper_nvrtc_JNvrtc_nvrtcCreateProgramNative, hl, Logger.log]
    | some h =>
      have hh1 : (h.length : Int) = numHeaders := hh h rfl
      refine ⟨(convertStringArray (convertString env src).1 h).1, ?_, ?_⟩
      · rw [convertStringArray_frame, convertString_frame]
      · simp [Java_CUDAWrapper_nvrtc_JNvrtc_nvrtcCreateProgramNative, hl, hh1, Logger.log,
          convertStringArray]
  | some n =>
    cases headers with
    | none =>
      refine ⟨(convertString (convertString env src).1 n).1, ?_, ?_⟩
      · rw [convertString_frame, convertString_frame]
      · simp [Java_CUDAWrapper_nvrtc_JNvrtc_nvrtcCreateProgramNative, hl, Logger.log]
    | some h =>
      have hh1 : (h.length : Int) = numHeaders := hh h rfl
      refine ⟨(convertStringArray (convertString (convertString env src).1 n).1 h).1, ?_, ?_⟩
      · rw [convertStringArray_frame, convertString_frame, convertString_frame]
      · simp [Java_CUDAWrapper_nvrtc_JNvrtc_nvrtcCreateProgramNative, hl, hh1, Logger.log,
          convertStringArray]

/-- Shape of `nvrtcCreateProgram` when both arrays pass the length check: the library is
called once, on the entry state, with the handle value and the texts of the managed
arguments; the handle receives the reference the call left; nothing is raised. -/
theorem createProgram_valid {σ : Type} (C : Collab σ) (env : Env σ)
    (p : NativePointerObject) (src : String) (name : Option String) (numHeaders : Int)
    (headers includeNames : Option (List (Option String)))
    (hh : lengthOk headers numHeaders) (hi : lengthOk includeNames numHeaders)
    (out : ProgOut σ)
    (hout : out = Java_CUDAWrapper_nvrtc_JNvrtc_nvrtcCreateProgramNative C env (some p)
      (some src) name numHeaders headers includeNames)
    (r : Ret σ Int)
    (hr : r = C.nvrtcCreateProgram env.native p.nativePointer (some src) name numHeaders
      headers includeNames) :
    out.ret = r.result ∧ out.prog = some ⟨r.out⟩ ∧
      out.env.calls = env.calls ++ [NativeCall.nvrtcCreateProgram p.nativePointer numHeaders] ∧
      out.env.thrown = env.thrown ∧ out.env.writes = env.writes ++ [r.out] ∧
      out.env.native = r.state := by
  subst hout hr
  cases name <;> cases headers <;> cases includeNames <;>
    simp [lengthOk] at hh hi <;>
    simp [Java_CUDAWrapper_nvrtc_JNvrtc_nvrtcCreateProgramNative, Logger.log,
      setNativePointerValue, Env.called, getNativePointerValue, hh, hi]

/-- Shape of `nvrtcCompileProgram` when `options` passes the length check: the library is
called once, on the entry state, with the handle value and the texts of the options; the
handle field receives the value read from it; nothing is raised. -/
theorem compileProgram_valid {σ : Type} (C : Collab σ) (env : Env σ)
    (p : NativePointerObject) (numOptions : Int) (options : Option (List (Option String)))
    (ho : lengthOk options numOptions)
    (out : ProgOut σ)
    (hout : out = Java_CUDAWrapper_nvrtc_JNvrtc_nvrtcCompileProgramNative C env (some p)
      numOptions options)
    (r : Ret σ Unit)
    (hr : r = C.nvrtcCompileProgram env.native p.nativePointer numOptions options) :
    out.ret = r.result ∧ out.prog = some p ∧
      out.env.calls = env.calls ++ [NativeCall.nvrtcCompileProgram p.nativePointer numOptions] ∧
      out.env.thrown = env.thrown ∧ out.env.writes = env.writes ++ [p.nativePointer] ∧
      out.env.native = r.state := by
  subst hout hr
  cases options <;>
    simp [lengthOk] at ho <;>
    simp [Java_CUDAWrapper_nvrtc_JNvrtc_nvrtcCompileProgramNative, Logger.log,
      setNativePointerValue, Env.called, getNativePointerValue, ho]

/-- Shape of `nvrtcCompileProgram` when the supplied `options` array has the wrong
length. -/
theorem compileProgram_options_mismatch {σ : Type} (C : Collab σ) (s : σ)
    (p : NativePointerObject) (numOptions : Int) (options : Option (List (Option String)))
    (h : ∃ l, options = some l ∧ (l.length : Int) ≠ numOptions) :
    Java_CUDAWrapper_nvrtc_JNvrtc_nvrtcCompileProgramNative C (Env.start s) (some p)
        numOptions options
      = ⟨C.CUDA_INTERNAL_ERROR,
          Env.rejected s
            (illegalArgumentException "The options array length must be numOptions"),
          some p⟩ := by
  obtain ⟨l, rfl, hl⟩ := h
  simp [Java_CUDAWrapper_nvrtc_JNvrtc_nvrtcCompileProgramNative, hl]
  rfl

/-! ## Release of the marshaling allocations -/

theorem mem_deleteArray_live {σ : Type} (e : Env σ) (b a : Nat) :
    a ∈ (deleteArray e (some b)).live ↔ a ∈ e.live ∧ a ≠ b := by
  simp [deleteArray]

theorem filterMap_addr_none (l : List (Option CString)) :
    (none :: l).filterMap (Option.map CString.addr) = l.filterMap (Option.map CString.addr) :=
  rfl

theorem filterMap_addr_some (c : CString) (l : List (Option CString)) :
    (some c :: l).filterMap (Option.map CString.addr)
      = c.addr :: l.filterMap (Option.map CString.addr) :=
  rfl

theorem mem_deleteElems_live {σ : Type} (l : List (Option CString)) (e : Env σ) (a : Nat) :
    a ∈ (l.foldl (fun e c => deleteArray e (c.map CString.addr)) e).live ↔
      a ∈ e.live ∧ a ∉ l.filterMap (Option.map CString.addr) := by
  induction l generalizing e with
  | nil => simp
  | cons x rest ih =>
    cases x with
    | none =>
      rw [filterMap_addr_none, List.foldl_cons, ih]
      rfl
    | some c =>
      rw [filterMap_addr_some, List.foldl_cons, ih]
      simp only [Option.map_some', mem_deleteArray_live, List.mem_cons, not_or]
      tauto

theorem mem_convertStringElems_live {σ : Type} (l : List (Option String)) (e : Env σ)
    (a : Nat) :
    a ∈ (convertStringElems e l).1.live ↔
      a ∈ e.live ∨ a ∈ (convertStringElems e l).2.filterMap (Option.map CString.addr) := by
  induction l generalizing e with
  | nil => simp [convertStringElems]
  | cons x rest ih =>
    cases x with
    | none =>
      simp only [convertStringElems, filterMap_addr_none]
      exact ih e
    | some js =>
      simp only [convertStringElems, ih]
      simp only [convertString, filterMap_addr_some, List.mem_append, List.mem_singleton,
        List.mem_cons]
      tauto

theorem convertStringElems_length {σ : Type} (l : List (Option String)) (e : Env σ) :
    (convertStringElems e l).2.length = l.length := by
  induction l generalizing e with
  | nil => rfl
  | cons x rest ih => cases x <;> simp [convertStringElems, ih]

/-- The array made by `convertStringArray`: it has as many entries as the managed array,
and the conversion makes live exactly the addresses the array owns. -/
theorem convertStringArray_spec {σ : Type} (l : List (Option String)) (e : Env σ) :
    ∃ arr : CStringArray, (convertStringArray e l).2 = some arr
      ∧ arr.elems.length = l.length
      ∧ ∀ a, a ∈ (convertStringArray e l).1.live ↔ a ∈ e.live ∨ a ∈ arr.addrs := by
  refine ⟨_, rfl, convertStringElems_length _ _, ?_⟩
  intro a
  simp only [convertStringArray, mem_convertStringElems_live, CStringArray.addrs,
    List.mem_append, List.mem_singleton, List.mem_cons]
  tauto

/-- The deallocation `deleteStringArray` with at least the length of the array releases
exactly the addresses the array owns. -/
theorem mem_deleteStringArray_live {σ : Type} (e : Env σ) (arr : CStringArray) (n : Int)
    (hn : arr.elems.length ≤ n.toNat) (a : Nat) :
    a ∈ (deleteStringArray e (some arr) n).live ↔ a ∈ e.live ∧ a ∉ arr.addrs := by
  simp only [deleteStringArray, mem_deleteArray_live, mem_deleteElems_live,
    List.take_of_length_le hn, CStringArray.addrs, List.mem_cons, not_or]
  tauto

theorem mem_convertStringArray_live {σ : Type} (l : List (Option String)) (e : Env σ)
    (a : Nat) :
    a ∈ (convertStringArray e l).1.live ↔ a ∈ e.live ∨ a ∈ convertedAddrs e l := by
  obtain ⟨arr, harr, _, hmem⟩ := convertStringArray_spec l e
  rw [hmem, convertedAddrs, harr]

theorem mem_delete_converted_live {σ : Type} (l : List (Option String)) (e e1 : Env σ)
    (n : Int) (hn : (l.length : Int) = n) (a : Nat) :
    a ∈ (deleteStringArray e1 (convertStringArray e l).2 n).live ↔
      a ∈ e1.live ∧ a ∉ convertedAddrs e l := by
  obtain ⟨arr, harr, hlen, _⟩ := convertStringArray_spec l e
  have hle : arr.elems.length ≤ n.toNat := by
    rw [hlen, ← hn]
    simp
  rw [convertedAddrs, harr]
  exact mem_deleteStringArray_live e1 arr n hle a

theorem mem_convertString_live {σ : Type} (e : Env σ) (js : String) (a : Nat) :
    a ∈ (convertString e js).1.live ↔ a ∈ e.live ∨ a = e.nextAddr := by
  simp [convertString]

theorem mem_delete_convertString_live {σ : Type} (e e1 : Env σ) (js : String) (a : Nat) :
    a ∈ (deleteArray e1 ((convertString e js).2.map CString.addr)).live ↔
      a ∈ e1.live ∧ a ≠ e.nextAddr := by
  simp [convertString, deleteArray]

@[simp] theorem convertStringArray_isNone {σ : Type} (l : List (Option String)) (e : Env σ) :
    (convertStringArray e l).2.isNone = false := rfl

theorem deleteStringArray_none {σ : Type} (e : Env σ) (n : Int) :
    deleteStringArray e none n = e := rfl

theorem deleteArray_none {σ : Type} (e : Env σ) : deleteArray e none = e := rfl

/-- After a valid-argument call of `nvrtcCreateProgram` every string and string array
made by the marshaling has been released. -/
theorem createProgram_releases {σ : Type} (C : Collab σ) (s : σ)
    (p : NativePointerObject) (src : String) (name : Option String) (numHeaders : Int)
    (headers includeNames : Option (List (Option String)))
    (hh : lengthOk headers numHeaders) (hi : lengthOk includeNames numHeaders) :
    (Java_CUDAWrapper_nvrtc_JNvrtc_nvrtcCreateProgramNative C (Env.start s) (some p) (some src) name
        numHeaders headers
      includeNames).env.live = [] := by
  apply List.eq_nil_iff_forall_not_mem.mpr
  intro a ha
  have h0 : a ∉ (Env.start s).live := by simp [Env.start]
  cases name <;> cases headers <;> cases includeNames <;>
    simp [lengthOk] at hh hi <;>
    simp [Java_CUDAWrapper_nvrtc_JNvrtc_nvrtcCreateProgramNative, Logger.log, hh, hi] at ha <;>
    simp [mem_delete_converted_live, hh, hi, deleteStringArray_none, deleteArray_none,
      mem_convertStringArray_live, mem_convertString_live, mem_delete_convertString_live,
      setNativePointerValue, Env.called] at ha <;>
    tauto

/-- After a valid-argument call of `nvrtcCompileProgram` the string array made by the
marshaling has been released. -/
theorem compileProgram_releases {σ : Type} (C : Collab σ) (s : σ)
    (p : NativePointerObject) (numOptions : Int) (options : Option (List (Option String)))
    (ho : lengthOk options numOptions) :
    (Java_CUDAWrapper_nvrtc_JNvrtc_nvrtcCompileProgramNative C (Env.start s) (some p) numOptions
        options).env.live = [] := by
  apply List.eq_nil_iff_forall_not_mem.mpr
  intro a ha
  have h0 : a ∉ (Env.start s).live := by simp [Env.start]
  cases options <;>
    simp [lengthOk] at ho <;>
    simp [Java_CUDAWrapper_nvrtc_JNvrtc_nvrtcCompileProgramNative, Logger.log, ho] at ha <;>
    simp [mem_delete_converted_live, ho, deleteStringArray_none,
      mem_convertStringArray_live, setNativePointerValue, Env.called] at ha <;>
    tauto

/-- After a valid-argument call of `nvrtcAddNameExpression` the string made by the
marshaling has been released. -/
theorem addNameExpression_releases {σ : Type} (C : Collab σ) (s : σ)
    (p : NativePointerObject) (e : String) :
    (Java_CUDAWrapper_nvrtc_JNvrtc_nvrtcAddNameExpressionNative C (Env.start s) (some p)
        (some e)).env.live = [] := by
  simp [Java_CUDAWrapper_nvrtc_JNvrtc_nvrtcAddNameExpressionNative, Logger.log, Env.called,
      Env.start, convertString, deleteArray]

/-- After a valid-argument call of `nvrtcGetLoweredName` in which the result string is
built, the string made by the marshaling has been released. -/
theorem getLoweredName_releases_on_success {σ : Type} (C : Collab σ) (s : σ)
    (p : NativePointerObject) (e : String) (slots : List (Option String)) (hs : slots ≠ [])
    (hn : C.NewStringUTF (C.nvrtcGetLoweredName s p.nativePointer (some e)).out ≠ none) :
    (Java_CUDAWrapper_nvrtc_JNvrtc_nvrtcGetLoweredNameNative C (Env.start s) (some p) (some e)
        (some slots)).env.live = [] := by
  obtain ⟨str, hstr⟩ := Option.ne_none_iff_exists'.mp hn
  simp [Java_CUDAWrapper_nvrtc_JNvrtc_nvrtcGetLoweredNameNative, hs, Logger.log, Env.called,
      Env.start, convertString, deleteArray,
    getNativePointerValue, charsOf, hstr]

/-! ## Claims -/

/-- C1: every entry point with reference arguments, called with a null required
reference, raises exactly one `NullPointerException` whose message names the first null
parameter and the operation, returns `CUDA_INTERNAL_ERROR`, makes no library call, and
writes neither the handle nor any output array: the whole outcome is the rejected
environment together with the untouched arguments. -/
theorem C1_null_reference_rejected {σ : Type} (C : Collab σ) (s : σ)
    (p : NativePointerObject)
    (ints : Option (List Int)) (a : List Int)
    (src name expr : Option String) (e : String) (numHeaders numOptions : Int)
    (headers includeNames options slots : Option (List (Option String))) :
    -- nvrtcVersion
    (Java_CUDAWrapper_nvrtc_JNvrtc_nvrtcVersionNative C (Env.start s) none ints
      = ⟨C.CUDA_INTERNAL_ERROR,
          Env.rejected s (nullPointerException "major" "nvrtcVersion"), none, ints⟩)
    ∧ (Java_CUDAWrapper_nvrtc_JNvrtc_nvrtcVersionNative C (Env.start s) (some a) none
      = ⟨C.CUDA_INTERNAL_ERROR,
          Env.rejected s (nullPointerException "minor" "nvrtcVersion"), some a, none⟩)
    -- nvrtcCreateProgram
    ∧ (Java_CUDAWrapper_nvrtc_JNvrtc_nvrtcCreateProgramNative C (Env.start s) none src name
        numHeaders headers includeNames
      = ⟨C.CUDA_INTERNAL_ERROR,
          Env.rejected s (nullPointerException "prog" "nvrtcCreateProgram"), none⟩)
    ∧ (Java_CUDAWrapper_nvrtc_JNvrtc_nvrtcCreateProgramNative C (Env.start s) (some p) none
        name numHeaders headers includeNames
      = ⟨C.CUDA_INTERNAL_ERROR,
          Env.rejected s (nullPointerException "src" "nvrtcCreateProgram"), some p⟩)
    -- nvrtcDestroyProgram
    ∧ (Java_CUDAWrapper_nvrtc_JNvrtc_nvrtcDestroyProgramNative C (Env.start s) none
      = ⟨C.CUDA_INTERNAL_ERROR,
          Env.rejected s (nullPointerException "prog" "nvrtcDestroyProgram"), none⟩)
    -- nvrtcCompileProgram
    ∧ (Java_CUDAWrapper_nvrtc_JNvrtc_nvrtcCompileProgramNative C (Env.start s) none
        numOptions options
      = ⟨C.CUDA_INTERNAL_ERROR,
          Env.rejected s (nullPointerException "prog" "nvrtcCompileProgram"), none⟩)
    -- nvrtcGetPTXSize
    ∧ (Java_CUDAWrapper_nvrtc_JNvrtc_nvrtcGetPTXSizeNative C (Env.start s) none ints
      = ⟨C.CUDA_INTERNAL_ERROR,
          Env.rejected s (nullPointerException "prog" "nvrtcGetPTXSize"), none, ints⟩)
    ∧ (Java_CUDAWrapper_nvrtc_JNvrtc_nvrtcGetPTXSizeNative C (Env.start s) (some p) none
      = ⟨C.CUDA_INTERNAL_ERROR,
          Env.rejected s (nullPointerException "ptxSizeRet" "nvrtcGetPTXSize"),
          some p, none⟩)
    -- nvrtcGetPTX
    ∧ (Java_CUDAWrapper_nvrtc_JNvrtc_nvrtcGetPTXNative C (Env.start s) none slots
      = ⟨some C.CUDA_INTERNAL_ERROR,
          Env.rejected s (nullPointerException "prog" "nvrtcGetPTX"), none, slots⟩)
    ∧ (Java_CUDAWrapper_nvrtc_JNvrtc_nvrtcGetPTXNative C (Env.start s) (some p) none
      = ⟨some C.CUDA_INTERNAL_ERROR,
          Env.rejected s (nullPointerException "ptx" "nvrtcGetPTX"), some p, none⟩)
    -- nvrtcGetProgramLogSize
    ∧ (Java_CUDAWrapper_nvrtc_JNvrtc_nvrtcGetProgramLogSizeNative C (Env.start s) none ints
      = ⟨C.CUDA_INTERNAL_ERROR,
          Env.rejected s (nullPointerException "prog" "nvrtcGetProgramLogSize"),
          none, ints⟩)
    ∧ (Java_CUDAWrapper_nvrtc_JNvrtc_nvrtcGetProgramLogSizeNative C (Env.start s) (some p)
        none
      = ⟨C.CUDA_INTERNAL_ERROR,
          Env.rejected s (nullPointerException "logSizeRet" "nvrtcGetProgramLogSize"),
          some p, none⟩)
    -- nvrtcGetProgramLog
    ∧ (Java_CUDAWrapper_nvrtc_JNvrtc_nvrtcGetProgramLogNative C (Env.start s) none slots
      = ⟨some C.CUDA_INTERNAL_ERROR,
          Env.rejected s (nullPointerException "prog" "nvrtcGetProgramLog"), none, slots⟩)
    ∧ (Java_CUDAWrapper_nvrtc_JNvrtc_nvrtcGetProgramLogNative C (Env.start s) (some p) none
      = ⟨some C.CUDA_INTERNAL_ERROR,
          Env.rejected s (nullPointerException "log" "nvrtcGetProgramLog"), some p, none⟩)
    -- nvrtcAddNameExpression
    ∧ (Java_CUDAWrapper_nvrtc_JNvrtc_nvrtcAddNameExpressionNative C (Env.start s) none expr
      = ⟨C.CUDA_INTERNAL_ERROR,
          Env.rejected s (nullPointerException "prog" "nvrtcAddNameExpression"), none⟩)
    ∧ (Java_CUDAWrapper_nvrtc_JNvrtc_nvrtcAddNameExpressionNative C (Env.start s) (some p)
        none
      = ⟨C.CUDA_INTERNAL_ERROR,
          Env.rejected s (nullPointerException "name_expression" "nvrtcAddNameExpression"),
          some p⟩)
    -- nvrtcGetLoweredName
    ∧ (Java_CUDAWrapper_nvrtc_JNvrtc_nvrtcGetLoweredNameNative C (Env.start s) none expr
        slots
      = ⟨C.CUDA_INTERNAL_ERROR,
          Env.rejected s (nullPointerException "prog" "nvrtcGetLoweredName"), none, slots⟩)
    ∧ (Java_CUDAWrapper_nvrtc_JNvrtc_nvrtcGetLoweredNameNative C (Env.start s) (some p) none
        slots
      = ⟨C.CUDA_INTERNAL_ERROR,
          Env.rejected s (nullPointerException "name_expression" "nvrtcGetLoweredName"),
          some p, slots⟩)
    ∧ (Java_CUDAWrapper_nvrtc_JNvrtc_nvrtcGetLoweredNameNative C (Env.start s) (some p)
        (some e) none
      = ⟨C.CUDA_INTERNAL_ERROR,
          Env.rejected s (nullPointerException "lowered_name" "nvrtcGetLoweredName"),
          some p, none⟩) := by
  refine ⟨?_, ?_, ?_, ?_, ?_, ?_, ?_, ?_, ?_, ?_, ?_, ?_, ?_, ?_, ?_, ?_, ?_, ?_, ?_⟩ <;> rfl

/-- C2: a call of `nvrtcCreateProgram` with non-null `prog` and `src` in which a supplied
`headers` array or a supplied `includeNames` array has a length other than `numHeaders`,
and a call of `nvrtcCompileProgram` with non-null `prog` in which a supplied `options`
array has a length other than `numOptions`, raises exactly one
`IllegalArgumentException`, returns `CUDA_INTERNAL_ERROR`, makes no library call (the
library state is untouched) and leaves the handle as it was, with no write to its
field. -/
theorem C2_length_mismatch_rejected {σ : Type} (C : Collab σ) (s : σ)
    (p : NativePointerObject) (src : String) (name : Option String)
    (numHeaders numOptions : Int)
    (headers includeNames options : Option (List (Option String))) :
    (((∃ l, headers = some l ∧ (l.length : Int) ≠ numHeaders) ∨
        (∃ l, includeNames = some l ∧ (l.length : Int) ≠ numHeaders)) →
      (Java_CUDAWrapper_nvrtc_JNvrtc_nvrtcCreateProgramNative C (Env.start s) (some p)
          (some src) name numHeaders headers includeNames).ret = C.CUDA_INTERNAL_ERROR
      ∧ (∃ msg, (Java_CUDAWrapper_nvrtc_JNvrtc_nvrtcCreateProgramNative C (Env.start s)
          (some p) (some src) name numHeaders headers includeNames).env.thrown
            = [illegalArgumentException msg])
      ∧ (Java_CUDAWrapper_nvrtc_JNvrtc_nvrtcCreateProgramNative C (Env.start s) (some p)
          (some src) name numHeaders headers includeNames).env.calls = []
      ∧ (Java_CUDAWrapper_nvrtc_JNvrtc_nvrtcCreateProgramNative C (Env.start s) (some p)
          (some src) name numHeaders headers includeNames).env.native = s
      ∧ (Java_CUDAWrapper_nvrtc_JNvrtc_nvrtcCreateProgramNative C (Env.start s) (some p)
          (some src) name numHeaders headers includeNames).env.writes = []
      ∧ (Java_CUDAWrapper_nvrtc_JNvrtc_nvrtcCreateProgramNative C (Env.start s) (some p)
          (some src) name numHeaders headers includeNames).prog = some p)
    ∧ ((∃ l, options = some l ∧ (l.length : Int) ≠ numOptions) →
      Java_CUDAWrapper_nvrtc_JNvrtc_nvrtcCompileProgramNative C (Env.start s) (some p)
          numOptions options
        = ⟨C.CUDA_INTERNAL_ERROR,
            Env.rejected s
              (illegalArgumentException "The options array length must be numOptions"),
            some p⟩) := by
  constructor
  · intro h
    have key : ∃ (E : Env σ) (msg : String), E.frame = (Env.start s).frame ∧
        Java_CUDAWrapper_nvrtc_JNvrtc_nvrtcCreateProgramNative C (Env.start s) (some p)
          (some src) name numHeaders headers includeNames
          = ⟨C.CUDA_INTERNAL_ERROR,
              ThrowByName E "java/lang/IllegalArgumentException" msg, some p⟩ := by
      by_cases hh : lengthOk headers numHeaders
      · rcases h with ⟨l, rfl, hl⟩ | ⟨l, rfl, hl⟩
        · exact absurd (hh l rfl) hl
        · obtain ⟨E, hE, heq⟩ := createProgram_includeNames_mismatch C (Env.start s) p src
            name numHeaders headers l hh hl
          exact ⟨E, _, hE, heq⟩
      · simp only [lengthOk, not_forall] at hh
        obtain ⟨l, rfl, hl⟩ := hh
        obtain ⟨E, hE, heq⟩ := createProgram_headers_mismatch C (Env.start s) p src
          name numHeaders l includeNames hl
        exact ⟨E, _, hE, heq⟩
    obtain ⟨E, msg, hE, heq⟩ := key
    rw [heq]
    refine ⟨rfl, ⟨msg, ?_⟩, ?_, ?_, ?_, rfl⟩
    · simp [ThrowByName, frame_thrown hE, Env.start, illegalArgumentException]
    · simp [ThrowByName, frame_calls hE, Env.start]
    · simp [ThrowByName, frame_native hE, Env.start]
    · simp [ThrowByName, frame_writes hE, Env.start]
  · exact compileProgram_options_mismatch C s p numOptions options

/-- Witness for C2: `headers` of length 1 against `numHeaders = 2`, and `options` of
length 0 against `numOptions = 1`, on the toy library. -/
theorem C2_length_mismatch_rejected_witness :
    ((Java_CUDAWrapper_nvrtc_JNvrtc_nvrtcCreateProgramNative toyCollab (Env.start 0)
        (some ⟨0⟩) (some "kernel") none 2 (some [some "h"]) none).ret
        = toyCollab.CUDA_INTERNAL_ERROR
      ∧ (Java_CUDAWrapper_nvrtc_JNvrtc_nvrtcCreateProgramNative toyCollab (Env.start 0)
        (some ⟨0⟩) (some "kernel") none 2 (some [some "h"]) none).env.calls = [])
    ∧ Java_CUDAWrapper_nvrtc_JNvrtc_nvrtcCompileProgramNative toyCollab (Env.start 0)
        (some ⟨4096⟩) 1 (some [])
      = ⟨toyCollab.CUDA_INTERNAL_ERROR,
          Env.rejected 0
            (illegalArgumentException "The options array length must be numOptions"),
          some ⟨4096⟩⟩ :=
  have h := C2_length_mismatch_rejected toyCollab 0 ⟨0⟩ "kernel" none 2 1
    (some [some "h"]) none (some [])
  have h2 := C2_length_mismatch_rejected toyCollab 0 ⟨4096⟩ "kernel" none 2 1
    (some [some "h"]) none (some [])
  have c := h.1 (Or.inl ⟨[some "h"], rfl, by decide⟩)
  ⟨⟨c.1, c.2.2.1⟩, h2.2 ⟨[], rfl, by decide⟩⟩

/-- C3: a call of `nvrtcGetPTX`, `nvrtcGetProgramLog` or `nvrtcGetLoweredName` whose
output-slot array has length 0 fails with an argument error whatever the handle holds:
`CUDA_INTERNAL_ERROR` is returned, an exception is raised, no library call is made and
the library state is untouched; when every reference argument is non-null the exception
is the `IllegalArgumentException` and the whole outcome is the rejected environment with
the arguments untouched. -/
theorem C3_empty_output_array_rejected {σ : Type} (C : Collab σ) (s : σ)
    (prog : Option NativePointerObject) (p : NativePointerObject)
    (expr : Option String) (e : String) :
    -- nvrtcGetPTX, any handle
    ((Java_CUDAWrapper_nvrtc_JNvrtc_nvrtcGetPTXNative C (Env.start s) prog (some [])).ret = some
        C.CUDA_INTERNAL_ERROR
      ∧ (Java_CUDAWrapper_nvrtc_JNvrtc_nvrtcGetPTXNative C (Env.start s) prog (some [])).env.thrown
          ≠ []
      ∧ (Java_CUDAWrapper_nvrtc_JNvrtc_nvrtcGetPTXNative C (Env.start s) prog (some [])).env.calls =
          []
      ∧ (Java_CUDAWrapper_nvrtc_JNvrtc_nvrtcGetPTXNative C (Env.start s) prog (some [])).env.native
          = s)
    ∧ Java_CUDAWrapper_nvrtc_JNvrtc_nvrtcGetPTXNative C (Env.start s) (some p) (some [])
      = ⟨some C.CUDA_INTERNAL_ERROR,
          Env.rejected s
            (illegalArgumentException "String array must at least have length 1"),
          some p, some []⟩
    -- nvrtcGetProgramLog, any handle
    ∧ ((Java_CUDAWrapper_nvrtc_JNvrtc_nvrtcGetProgramLogNative C (Env.start s) prog (some [])).ret =
        some C.CUDA_INTERNAL_ERROR
      ∧ (Java_CUDAWrapper_nvrtc_JNvrtc_nvrtcGetProgramLogNative C (Env.start s) prog
          (some [])).env.thrown ≠ []
      ∧ (Java_CUDAWrapper_nvrtc_JNvrtc_nvrtcGetProgramLogNative C (Env.start s) prog
          (some [])).env.calls = []
      ∧ (Java_CUDAWrapper_nvrtc_JNvrtc_nvrtcGetProgramLogNative C (Env.start s) prog
          (some [])).env.native = s)
    ∧ Java_CUDAWrapper_nvrtc_JNvrtc_nvrtcGetProgramLogNative C (Env.start s) (some p) (some [])
      = ⟨some C.CUDA_INTERNAL_ERROR,
          Env.rejected s
            (illegalArgumentException "String array must at least have length 1"),
          some p, some []⟩
    -- nvrtcGetLoweredName, any handle and any expression
    ∧ ((Java_CUDAWrapper_nvrtc_JNvrtc_nvrtcGetLoweredNameNative C (Env.start s) prog expr
        (some [])).ret = C.CUDA_INTERNAL_ERROR
      ∧ (Java_CUDAWrapper_nvrtc_JNvrtc_nvrtcGetLoweredNameNative C (Env.start s) prog expr
          (some [])).env.thrown ≠ []
      ∧ (Java_CUDAWrapper_nvrtc_JNvrtc_nvrtcGetLoweredNameNative C (Env.start s) prog expr
          (some [])).env.calls = []
      ∧ (Java_CUDAWrapper_nvrtc_JNvrtc_nvrtcGetLoweredNameNative C (Env.start s) prog expr
          (some [])).env.native = s)
    ∧ Java_CUDAWrapper_nvrtc_JNvrtc_nvrtcGetLoweredNameNative C (Env.start s) (some p) (some e)
        (some [])
      = ⟨C.CUDA_INTERNAL_ERROR,
          Env.rejected s
            (illegalArgumentException
              "String array lowered_name must at least have length 1"),
          some p, some []⟩ := by
  refine ⟨?_, rfl, ?_, rfl, ?_, rfl⟩
  · cases prog <;> simp [Java_CUDAWrapper_nvrtc_JNvrtc_nvrtcGetPTXNative, ThrowByName, Env.start,
      Logger.log]
  · cases prog <;> simp [Java_CUDAWrapper_nvrtc_JNvrtc_nvrtcGetProgramLogNative, ThrowByName,
      Env.start, Logger.log]
  · cases prog <;> cases expr <;> simp [Java_CUDAWrapper_nvrtc_JNvrtc_nvrtcGetLoweredNameNative,
      ThrowByName, Env.start, Logger.log]

/-- C4: in `nvrtcGetPTX` and `nvrtcGetProgramLog`, when the arguments are valid and the
size query returns a code other than success, the operation returns exactly that code,
allocates no buffer, makes the size query its only library call (the fetch is never
invoked), raises nothing and leaves the output array, slot 0 included, as it was. -/
theorem C4_size_query_failure_propagates {σ : Type} (C : Collab σ) (s : σ)
    (p : NativePointerObject) (slots : List (Option String)) (hs : slots ≠ []) :
    ((C.nvrtcGetPTXSize s p.nativePointer).result ≠ NVRTC_SUCCESS →
      Java_CUDAWrapper_nvrtc_JNvrtc_nvrtcGetPTXNative C (Env.start s) (some p) (some slots)
        = ⟨some (C.nvrtcGetPTXSize s p.nativePointer).result,
            { native := (C.nvrtcGetPTXSize s p.nativePointer).state,
              calls := [NativeCall.nvrtcGetPTXSize p.nativePointer],
              thrown := [], writes := [], live := [], buffers := [], liveBuffers := [],
              nextAddr := 0 },
            some p, some slots⟩)
    ∧ ((C.nvrtcGetProgramLogSize s p.nativePointer).result ≠ NVRTC_SUCCESS →
      Java_CUDAWrapper_nvrtc_JNvrtc_nvrtcGetProgramLogNative C (Env.start s) (some p) (some slots)
        = ⟨some (C.nvrtcGetProgramLogSize s p.nativePointer).result,
            { native := (C.nvrtcGetProgramLogSize s p.nativePointer).state,
              calls := [NativeCall.nvrtcGetProgramLogSize p.nativePointer],
              thrown := [], writes := [], live := [], buffers := [], liveBuffers := [],
              nextAddr := 0 },
            some p, some slots⟩) := by
  constructor
  · intro h
    simp [Java_CUDAWrapper_nvrtc_JNvrtc_nvrtcGetPTXNative, hs, h, Logger.log, Env.start, Env.called,
        getNativePointerValue]
  · intro h
    simp [Java_CUDAWrapper_nvrtc_JNvrtc_nvrtcGetProgramLogNative, hs, h, Logger.log, Env.start,
        Env.called, getNativePointerValue]

/-- Witness for C4: both fetch operations on the toy library whose size queries fail
with code 4, with a one-slot output array. -/
theorem C4_size_query_failure_propagates_witness :
    [(none : Option String)] ≠ []
    ∧ (toyCollabNoSize.nvrtcGetPTXSize 0 4096).result ≠ NVRTC_SUCCESS
    ∧ (Java_CUDAWrapper_nvrtc_JNvrtc_nvrtcGetPTXNative toyCollabNoSize (Env.start 0) (some ⟨4096⟩)
        (some [none])).ret = some 4
    ∧ (toyCollabNoSize.nvrtcGetProgramLogSize 0 4096).result ≠ NVRTC_SUCCESS
    ∧ (Java_CUDAWrapper_nvrtc_JNvrtc_nvrtcGetProgramLogNative toyCollabNoSize (Env.start 0)
        (some ⟨4096⟩) (some [none])).ret = some 4 :=
  have h := C4_size_query_failure_propagates toyCollabNoSize 0 ⟨4096⟩ [none] (by decide)
  ⟨by decide, by decide, congrArg FetchOut.ret (h.1 (by decide)), by decide,
    congrArg FetchOut.ret (h.2 (by decide))⟩

/-- C5 as stated fails: on the toy library whose size queries report `2 ^ 62` bytes,
`nvrtcGetPTX` is called with valid arguments (non-null handle, one-slot output array),
the size query succeeds and the host string of the fetch could be built, yet the
`new char[]` of line 333 throws `std::bad_alloc`: the call returns no code at all, so it
does not return the code of the fetch. -/
theorem C5_native_code_returned_counterexample :
    ([(none : Option String)] ≠ []
      ∧ (toyCollabHuge.nvrtcGetPTXSize 0 4096).result = NVRTC_SUCCESS
      ∧ toyCollabHuge.NewStringUTF (some (toyCollabHuge.nvrtcGetPTX
          (toyCollabHuge.nvrtcGetPTXSize 0 4096).state 4096
          ⟨0, toSizeT (toyCollabHuge.nvrtcGetPTXSize 0 4096).out⟩).out) ≠ none)
    ∧ (Java_CUDAWrapper_nvrtc_JNvrtc_nvrtcGetPTXNative toyCollabHuge (Env.start 0) (some ⟨4096⟩)
        (some [none])).ret = none
    ∧ ¬ ((Java_CUDAWrapper_nvrtc_JNvrtc_nvrtcGetPTXNative toyCollabHuge (Env.start 0) (some ⟨4096⟩)
        (some [none])).ret
          = some (toyCollabHuge.nvrtcGetPTX (toyCollabHuge.nvrtcGetPTXSize 0 4096).state 4096
              ⟨0, toSizeT (toyCollabHuge.nvrtcGetPTXSize 0 4096).out⟩).result
        ∧ (Java_CUDAWrapper_nvrtc_JNvrtc_nvrtcGetPTXNative toyCollabHuge (Env.start 0) (some ⟨4096⟩)
            (some [none])).env.thrown = []) := by
  have hret : (Java_CUDAWrapper_nvrtc_JNvrtc_nvrtcGetPTXNative toyCollabHuge (Env.start 0)
      (some ⟨4096⟩) (some [none])).ret = none := by
    decide
  refine ⟨⟨by decide, by decide, by simp [toyCollabHuge, toyCollab]⟩, hret, ?_⟩
  rintro ⟨h, _⟩
  rw [hret] at h
  cases h

/-- C5, amended: every entry point that returns a result code, called with arguments that
pass validation (required references non-null, array lengths equal to the declared
counts, output arrays of length at least 1), with the host string construction
succeeding and, for `nvrtcGetPTX` and `nvrtcGetProgramLog`, with the allocation of the
output buffer succeeding, raises nothing and returns the result code of the library
unchanged, whatever that code is: the code of the single library call for version,
create, destroy, compile, the size queries, `nvrtcAddNameExpression` and
`nvrtcGetLoweredName`, and the code of the fetch call for `nvrtcGetPTX` and
`nvrtcGetProgramLog` when the size query succeeded.  The library is called on the entry
state with the handle value and the texts of the managed arguments. -/
theorem C5_native_code_returned_amended {σ : Type} (C : Collab σ) (s : σ)
    (p : NativePointerObject) (a b : List Int) (src e : String) (name : Option String)
    (numHeaders numOptions : Int)
    (headers includeNames options : Option (List (Option String)))
    (slots : List (Option String)) :
    -- nvrtcVersion
    (a ≠ [] → b ≠ [] →
      (Java_CUDAWrapper_nvrtc_JNvrtc_nvrtcVersionNative C (Env.start s) (some a) (some b)).ret =
          (C.nvrtcVersion s).result
      ∧ (Java_CUDAWrapper_nvrtc_JNvrtc_nvrtcVersionNative C (Env.start s) (some a)
          (some b)).env.thrown = [])
    -- nvrtcCreateProgram
    ∧ (lengthOk headers numHeaders → lengthOk includeNames numHeaders →
      (Java_CUDAWrapper_nvrtc_JNvrtc_nvrtcCreateProgramNative C (Env.start s) (some p) (some src)
          name numHeaders headers includeNames).ret
        = (C.nvrtcCreateProgram s p.nativePointer (some src) name numHeaders headers
            includeNames).result
      ∧ (Java_CUDAWrapper_nvrtc_JNvrtc_nvrtcCreateProgramNative C (Env.start s) (some p) (some src)
          name numHeaders headers
          includeNames).env.thrown = [])
    -- nvrtcDestroyProgram
    ∧ ((Java_CUDAWrapper_nvrtc_JNvrtc_nvrtcDestroyProgramNative C (Env.start s) (some p)).ret =
        (C.nvrtcDestroyProgram s p.nativePointer).result
      ∧ (Java_CUDAWrapper_nvrtc_JNvrtc_nvrtcDestroyProgramNative C (Env.start s)
          (some p)).env.thrown = [])
    -- nvrtcCompileProgram
    ∧ (lengthOk options numOptions →
      (Java_CUDAWrapper_nvrtc_JNvrtc_nvrtcCompileProgramNative C (Env.start s) (some p) numOptions
          options).ret
        = (C.nvrtcCompileProgram s p.nativePointer numOptions options).result
      ∧ (Java_CUDAWrapper_nvrtc_JNvrtc_nvrtcCompileProgramNative C (Env.start s) (some p) numOptions
          options).env.thrown = [])
    -- nvrtcGetPTXSize
    ∧ (a ≠ [] →
      (Java_CUDAWrapper_nvrtc_JNvrtc_nvrtcGetPTXSizeNative C (Env.start s) (some p) (some a)).ret
        = (C.nvrtcGetPTXSize s p.nativePointer).result
      ∧ (Java_CUDAWrapper_nvrtc_JNvrtc_nvrtcGetPTXSizeNative C (Env.start s) (some p)
          (some a)).env.thrown = [])
    -- nvrtcGetPTX
    ∧ (slots ≠ [] → (C.nvrtcGetPTXSize s p.nativePointer).result = NVRTC_SUCCESS →
      C.operatorNewArray (toSizeT (C.nvrtcGetPTXSize s p.nativePointer).out) = true →
      C.NewStringUTF (some (C.nvrtcGetPTX (C.nvrtcGetPTXSize s p.nativePointer).state
        p.nativePointer ⟨0, toSizeT (C.nvrtcGetPTXSize s p.nativePointer).out⟩).out) ≠ none →
      (Java_CUDAWrapper_nvrtc_JNvrtc_nvrtcGetPTXNative C (Env.start s) (some p) (some slots)).ret
        = some (C.nvrtcGetPTX (C.nvrtcGetPTXSize s p.nativePointer).state p.nativePointer
            ⟨0, toSizeT (C.nvrtcGetPTXSize s p.nativePointer).out⟩).result
      ∧ (Java_CUDAWrapper_nvrtc_JNvrtc_nvrtcGetPTXNative C (Env.start s) (some p)
          (some slots)).env.thrown = [])
    -- nvrtcGetProgramLogSize
    ∧ (a ≠ [] →
      (Java_CUDAWrapper_nvrtc_JNvrtc_nvrtcGetProgramLogSizeNative C (Env.start s) (some p)
          (some a)).ret
        = (C.nvrtcGetProgramLogSize s p.nativePointer).result
      ∧ (Java_CUDAWrapper_nvrtc_JNvrtc_nvrtcGetProgramLogSizeNative C (Env.start s) (some p)
          (some a)).env.thrown = [])
    -- nvrtcGetProgramLog
    ∧ (slots ≠ [] → (C.nvrtcGetProgramLogSize s p.nativePointer).result = NVRTC_SUCCESS →
      C.operatorNewArray (toSizeT (C.nvrtcGetProgramLogSize s p.nativePointer).out) = true →
      C.NewStringUTF (some (C.nvrtcGetProgramLog
        (C.nvrtcGetProgramLogSize s p.nativePointer).state p.nativePointer
        ⟨0, toSizeT (C.nvrtcGetProgramLogSize s p.nativePointer).out⟩).out) ≠ none →
      (Java_CUDAWrapper_nvrtc_JNvrtc_nvrtcGetProgramLogNative C (Env.start s) (some p)
          (some slots)).ret
        = some (C.nvrtcGetProgramLog (C.nvrtcGetProgramLogSize s p.nativePointer).state
            p.nativePointer
            ⟨0, toSizeT (C.nvrtcGetProgramLogSize s p.nativePointer).out⟩).result
      ∧ (Java_CUDAWrapper_nvrtc_JNvrtc_nvrtcGetProgramLogNative C (Env.start s) (some p)
          (some slots)).env.thrown = [])
    -- nvrtcAddNameExpression
    ∧ ((Java_CUDAWrapper_nvrtc_JNvrtc_nvrtcAddNameExpressionNative C (Env.start s) (some p)
        (some e)).ret
        = (C.nvrtcAddNameExpression s p.nativePointer (some e)).result
      ∧ (Java_CUDAWrapper_nvrtc_JNvrtc_nvrtcAddNameExpressionNative C (Env.start s) (some p)
          (some e)).env.thrown = [])
    -- nvrtcGetLoweredName
    ∧ (slots ≠ [] →
      C.NewStringUTF (C.nvrtcGetLoweredName s p.nativePointer (some e)).out ≠ none →
      (Java_CUDAWrapper_nvrtc_JNvrtc_nvrtcGetLoweredNameNative C (Env.start s) (some p) (some e)
          (some slots)).ret
        = (C.nvrtcGetLoweredName s p.nativePointer (some e)).result
      ∧ (Java_CUDAWrapper_nvrtc_JNvrtc_nvrtcGetLoweredNameNative C (Env.start s) (some p) (some e)
          (some slots)).env.thrown = []) := by
  refine ⟨?_, ?_, ?_, ?_, ?_, ?_, ?_, ?_, ?_, ?_⟩
  · intro ha hb
    have ha1 : 0 < a.length := List.length_pos.mpr ha
    have hb1 : 0 < b.length := List.length_pos.mpr hb
    simp [Java_CUDAWrapper_nvrtc_JNvrtc_nvrtcVersionNative, set, ha1, hb1, Logger.log, Env.start,
        Env.called]
  · intro hh hi
    have h := createProgram_valid C (Env.start s) p src name numHeaders headers includeNames
      hh hi _ rfl _ rfl
    exact ⟨h.1, h.2.2.2.1⟩
  · simp [Java_CUDAWrapper_nvrtc_JNvrtc_nvrtcDestroyProgramNative, setNativePointerValue,
      Logger.log, Env.start, Env.called,
      getNativePointerValue]
  · intro ho
    have h := compileProgram_valid C (Env.start s) p numOptions options ho _ rfl _ rfl
    exact ⟨h.1, h.2.2.2.1⟩
  · intro ha
    have ha1 : 0 < a.length := List.length_pos.mpr ha
    simp [Java_CUDAWrapper_nvrtc_JNvrtc_nvrtcGetPTXSizeNative, set, ha1, Logger.log, Env.start,
        Env.called, getNativePointerValue]
  · intro hs hq hm hn
    obtain ⟨str, hstr⟩ := Option.ne_none_iff_exists'.mp hn
    simp [Java_CUDAWrapper_nvrtc_JNvrtc_nvrtcGetPTXNative, hs, hq, hm, hstr, newCharArray,
        deleteBuffer, Logger.log, Env.start,
      Env.called, getNativePointerValue]
  · intro ha
    have ha1 : 0 < a.length := List.length_pos.mpr ha
    simp [Java_CUDAWrapper_nvrtc_JNvrtc_nvrtcGetProgramLogSizeNative, set, ha1, Logger.log,
        Env.start, Env.called, getNativePointerValue]
  · intro hs hq hm hn
    obtain ⟨str, hstr⟩ := Option.ne_none_iff_exists'.mp hn
    simp [Java_CUDAWrapper_nvrtc_JNvrtc_nvrtcGetProgramLogNative, hs, hq, hm, hstr, newCharArray,
        deleteBuffer, Logger.log, Env.start,
      Env.called, getNativePointerValue]
  · simp [Java_CUDAWrapper_nvrtc_JNvrtc_nvrtcAddNameExpressionNative, Logger.log, Env.start,
      Env.called, getNativePointerValue]
  · intro hs hn
    obtain ⟨str, hstr⟩ := Option.ne_none_iff_exists'.mp hn
    simp [Java_CUDAWrapper_nvrtc_JNvrtc_nvrtcGetLoweredNameNative, hs, hstr, Logger.log, Env.start,
        Env.called, getNativePointerValue]

/-- Witness for C5, amended: every entry point on the toy library, with one header, one
include name, no option and a one-slot output array; the buffers of 5 bytes and 1 byte
can be allocated, and each entry point returns the code 0 of the toy call. -/
theorem C5_native_code_returned_amended_witness :
    ([(0 : Int)] ≠ [] ∧ [(none : Option String)] ≠ []
      ∧ (toyCollab.nvrtcGetPTXSize 0 4096).result = NVRTC_SUCCESS
      ∧ toyCollab.operatorNewArray (toSizeT (toyCollab.nvrtcGetPTXSize 0 4096).out) = true
      ∧ toyCollab.operatorNewArray (toSizeT (toyCollab.nvrtcGetProgramLogSize 0 4096).out)
          = true)
    ∧ (Java_CUDAWrapper_nvrtc_JNvrtc_nvrtcVersionNative toyCollab (Env.start 0) (some [0])
        (some [0])).ret = 0
    ∧ (Java_CUDAWrapper_nvrtc_JNvrtc_nvrtcCreateProgramNative toyCollab (Env.start 0) (some ⟨4096⟩)
        (some "src") none 1
        (some [some "h"]) (some [some "h.h"])).ret = 0
    ∧ (Java_CUDAWrapper_nvrtc_JNvrtc_nvrtcDestroyProgramNative toyCollab (Env.start 0)
        (some ⟨4096⟩)).ret = 0
    ∧ (Java_CUDAWrapper_nvrtc_JNvrtc_nvrtcCompileProgramNative toyCollab (Env.start 0) (some ⟨4096⟩)
        0 (some [])).ret = 0
    ∧ (Java_CUDAWrapper_nvrtc_JNvrtc_nvrtcGetPTXSizeNative toyCollab (Env.start 0) (some ⟨4096⟩)
        (some [0])).ret = 0
    ∧ (Java_CUDAWrapper_nvrtc_JNvrtc_nvrtcGetPTXNative toyCollab (Env.start 0) (some ⟨4096⟩)
        (some [none])).ret = some 0
    ∧ (Java_CUDAWrapper_nvrtc_JNvrtc_nvrtcGetProgramLogSizeNative toyCollab (Env.start 0)
        (some ⟨4096⟩) (some [0])).ret = 0
    ∧ (Java_CUDAWrapper_nvrtc_JNvrtc_nvrtcGetProgramLogNative toyCollab (Env.start 0) (some ⟨4096⟩)
        (some [none])).ret = some 0
    ∧ (Java_CUDAWrapper_nvrtc_JNvrtc_nvrtcAddNameExpressionNative toyCollab (Env.start 0)
        (some ⟨4096⟩) (some "f<int>")).ret = 0
    ∧ (Java_CUDAWrapper_nvrtc_JNvrtc_nvrtcGetLoweredNameNative toyCollab (Env.start 0) (some ⟨4096⟩)
        (some "f<int>") (some [none])).ret = 0 :=
  have h := C5_native_code_returned_amended toyCollab 0 ⟨4096⟩ [0] [0] "src" "f<int>" none
    1 0 (some [some "h"]) (some [some "h.h"]) (some []) [none]
  have l1 : lengthOk (some [some "h"]) 1 := fun l hl => by cases hl; rfl
  have l2 : lengthOk (some [some "h.h"]) 1 := fun l hl => by cases hl; rfl
  have l3 : lengthOk (some ([] : List (Option String))) 0 := fun l hl => by cases hl; rfl
  ⟨⟨by decide, by decide, by decide, by decide, by decide⟩,
    (h.1 (by decide) (by decide)).1,
    (h.2.1 l1 l2).1,
    h.2.2.1.1,
    (h.2.2.2.1 l3).1,
    (h.2.2.2.2.1 (by decide)).1,
    (h.2.2.2.2.2.1 (by decide) (by decide) (by decide) (by simp [toyCollab])).1,
    (h.2.2.2.2.2.2.1 (by decide)).1,
    (h.2.2.2.2.2.2.2.1 (by decide) (by decide) (by decide) (by simp [toyCollab])).1,
    h.2.2.2.2.2.2.2.2.1.1,
    (h.2.2.2.2.2.2.2.2.2 (by decide) (by simp [toyCollab])).1⟩

/-- C6: for `nvrtcCreateProgram` and `nvrtcDestroyProgram`, on every valid-argument call
that reaches the library call and for every result code of that call, the library call
is given the value read from the handle field, and the field afterwards holds the value
the call left in that reference (one write, of that value); in particular a destroy or a
failing create that sets the reference to null leaves 0 in the handle. -/
theorem C6_handle_written_back {σ : Type} (C : Collab σ) (s : σ)
    (p : NativePointerObject) (src : String) (name : Option String) (numHeaders : Int)
    (headers includeNames : Option (List (Option String))) :
    (lengthOk headers numHeaders → lengthOk includeNames numHeaders →
      (Java_CUDAWrapper_nvrtc_JNvrtc_nvrtcCreateProgramNative C (Env.start s) (some p) (some src)
          name numHeaders headers includeNames).prog
        = some ⟨(C.nvrtcCreateProgram s p.nativePointer (some src) name numHeaders headers
            includeNames).out⟩
      ∧ (Java_CUDAWrapper_nvrtc_JNvrtc_nvrtcCreateProgramNative C (Env.start s) (some p) (some src)
          name numHeaders headers
          includeNames).env.writes
        = [(C.nvrtcCreateProgram s p.nativePointer (some src) name numHeaders headers
            includeNames).out]
      ∧ (Java_CUDAWrapper_nvrtc_JNvrtc_nvrtcCreateProgramNative C (Env.start s) (some p) (some src)
          name numHeaders headers
          includeNames).env.calls
        = [NativeCall.nvrtcCreateProgram p.nativePointer numHeaders]
      ∧ ((C.nvrtcCreateProgram s p.nativePointer (some src) name numHeaders headers
            includeNames).out = 0 →
          (Java_CUDAWrapper_nvrtc_JNvrtc_nvrtcCreateProgramNative C (Env.start s) (some p)
              (some src) name numHeaders headers
            includeNames).prog = some ⟨0⟩))
    ∧ ((Java_CUDAWrapper_nvrtc_JNvrtc_nvrtcDestroyProgramNative C (Env.start s) (some p)).prog
        = some ⟨(C.nvrtcDestroyProgram s p.nativePointer).out⟩
      ∧ (Java_CUDAWrapper_nvrtc_JNvrtc_nvrtcDestroyProgramNative C (Env.start s)
          (some p)).env.writes
        = [(C.nvrtcDestroyProgram s p.nativePointer).out]
      ∧ (Java_CUDAWrapper_nvrtc_JNvrtc_nvrtcDestroyProgramNative C (Env.start s) (some p)).env.calls
        = [NativeCall.nvrtcDestroyProgram p.nativePointer]
      ∧ ((C.nvrtcDestroyProgram s p.nativePointer).out = 0 →
          (Java_CUDAWrapper_nvrtc_JNvrtc_nvrtcDestroyProgramNative C (Env.start s) (some p)).prog =
              some ⟨0⟩)) := by
  constructor
  · intro hh hi
    have h := createProgram_valid C (Env.start s) p src name numHeaders headers includeNames
      hh hi _ rfl _ rfl
    refine ⟨h.2.1, ?_, ?_, ?_⟩
    · simpa [Env.start] using h.2.2.2.2.1
    · simpa [Env.start] using h.2.2.1
    · intro h0
      rw [h.2.1]
      exact congrArg (fun v => some (NativePointerObject.mk v)) h0
  · refine ⟨?_, ?_, ?_, ?_⟩
    · simp [Java_CUDAWrapper_nvrtc_JNvrtc_nvrtcDestroyProgramNative, setNativePointerValue,
        Logger.log, Env.start, getNativePointerValue]
    · simp [Java_CUDAWrapper_nvrtc_JNvrtc_nvrtcDestroyProgramNative, setNativePointerValue,
        Logger.log, Env.start, Env.called,
        getNativePointerValue]
    · simp [Java_CUDAWrapper_nvrtc_JNvrtc_nvrtcDestroyProgramNative, setNativePointerValue,
        Logger.log, Env.start, Env.called,
        getNativePointerValue]
    · intro h0
      simp [Java_CUDAWrapper_nvrtc_JNvrtc_nvrtcDestroyProgramNative, setNativePointerValue,
          Logger.log, Env.start, getNativePointerValue, h0]

/-- Witness for C6: create on a fresh handle and destroy on the handle 4096, on the toy
library: the handle holds 4096 after create and 0 after destroy. -/
theorem C6_handle_written_back_witness :
    (Java_CUDAWrapper_nvrtc_JNvrtc_nvrtcCreateProgramNative toyCollab (Env.start 0) (some ⟨0⟩)
        (some "src") none 0 none none).prog
      = some ⟨4096⟩
    ∧ (toyCollab.nvrtcDestroyProgram 0 4096).out = 0
    ∧ (Java_CUDAWrapper_nvrtc_JNvrtc_nvrtcDestroyProgramNative toyCollab (Env.start 0)
        (some ⟨4096⟩)).prog = some ⟨0⟩ :=
  have h1 := C6_handle_written_back toyCollab 0 ⟨0⟩ "src" none 0 none none
  have h2 := C6_handle_written_back toyCollab 0 ⟨4096⟩ "src" none 0 none none
  ⟨(h1.1 (fun _ hl => by cases hl) (fun _ hl => by cases hl)).1, by decide,
    h2.2.2.2.2 (by decide)⟩

/-- C7: on the toy library in a managed runtime that cannot build the result string,
`nvrtcGetLoweredName` with valid arguments makes its library call, raises the
`OutOfMemoryError` and returns `CUDA_INTERNAL_ERROR` while the string made by
`convertString` for `name_expression` (address 0) is still allocated: the return of line
522 precedes the `delete[]` of line 526.  With a working string constructor the same call
releases it. -/
theorem C7_getLoweredName_keeps_string_on_failure :
    (Java_CUDAWrapper_nvrtc_JNvrtc_nvrtcGetLoweredNameNative toyCollabNoString (Env.start 0)
        (some ⟨4096⟩) (some "f<int>")
        (some [none])).env.calls = [NativeCall.nvrtcGetLoweredName 4096 (some "f<int>")]
    ∧ (Java_CUDAWrapper_nvrtc_JNvrtc_nvrtcGetLoweredNameNative toyCollabNoString (Env.start 0)
        (some ⟨4096⟩) (some "f<int>")
        (some [none])).env.thrown = [outOfMemoryError]
    ∧ (Java_CUDAWrapper_nvrtc_JNvrtc_nvrtcGetLoweredNameNative toyCollabNoString (Env.start 0)
        (some ⟨4096⟩) (some "f<int>")
        (some [none])).ret = toyCollabNoString.CUDA_INTERNAL_ERROR
    ∧ (Java_CUDAWrapper_nvrtc_JNvrtc_nvrtcGetLoweredNameNative toyCollabNoString (Env.start 0)
        (some ⟨4096⟩) (some "f<int>")
        (some [none])).env.live = [0]
    ∧ (Java_CUDAWrapper_nvrtc_JNvrtc_nvrtcGetLoweredNameNative toyCollab (Env.start 0) (some ⟨4096⟩)
        (some "f<int>")
        (some [none])).env.live = [] := by
  refine ⟨rfl, rfl, rfl, rfl, ?_⟩
  decide

/-- C8 as stated fails: on the toy library whose size queries report `2 ^ 62` bytes,
`nvrtcGetPTX` is called with valid arguments and the size query succeeds, yet the
`new char[]` of line 333 throws `std::bad_alloc`: no buffer is allocated and the fetch is
never called, so there is no buffer of the reported size that is passed to the fetch. -/
theorem C8_buffer_has_reported_size_counterexample :
    ([(none : Option String)] ≠ []
      ∧ (toyCollabHuge.nvrtcGetPTXSize 0 4096).result = NVRTC_SUCCESS
      ∧ toSizeT (toyCollabHuge.nvrtcGetPTXSize 0 4096).out = 2 ^ 62)
    ∧ (Java_CUDAWrapper_nvrtc_JNvrtc_nvrtcGetPTXNative toyCollabHuge (Env.start 0) (some ⟨4096⟩)
        (some [none])).env.buffers = []
    ∧ (Java_CUDAWrapper_nvrtc_JNvrtc_nvrtcGetPTXNative toyCollabHuge (Env.start 0) (some ⟨4096⟩)
        (some [none])).env.calls
        = [NativeCall.nvrtcGetPTXSize 4096]
    ∧ ¬ ∃ buffer : Buffer,
        buffer.size = toSizeT (toyCollabHuge.nvrtcGetPTXSize 0 4096).out
        ∧ (Java_CUDAWrapper_nvrtc_JNvrtc_nvrtcGetPTXNative toyCollabHuge (Env.start 0) (some ⟨4096⟩)
            (some [none])).env.buffers
          = [buffer]
        ∧ (Java_CUDAWrapper_nvrtc_JNvrtc_nvrtcGetPTXNative toyCollabHuge (Env.start 0) (some ⟨4096⟩)
            (some [none])).env.calls
          = [NativeCall.nvrtcGetPTXSize 4096, NativeCall.nvrtcGetPTX 4096 buffer] := by
  have hb : (Java_CUDAWrapper_nvrtc_JNvrtc_nvrtcGetPTXNative toyCollabHuge (Env.start 0)
      (some ⟨4096⟩) (some [none])).env.buffers
      = [] := by decide
  refine ⟨⟨by decide, by decide, by decide⟩, hb, by decide, ?_⟩
  rintro ⟨buffer, _, h, _⟩
  rw [hb] at h
  cases h

/-- C8, amended: in `nvrtcGetPTX` and `nvrtcGetProgramLog`, on a valid-argument call whose
size query succeeds and reports size `n`, no buffer of a size other than `n` is
allocated and the fetch is called with no buffer other than one the call allocated; and
when the allocation of the buffer succeeds, exactly one buffer is allocated, it has
exactly `n` bytes, it is the buffer handed to the fetch call, and `n` is the size
reported by the size query made in the same call on the same handle reference: the
library calls are the size query and then the fetch, both on the value read from the
handle. -/
theorem C8_buffer_has_reported_size_amended {σ : Type} (C : Collab σ) (s : σ)
    (p : NativePointerObject) (slots : List (Option String)) (hs : slots ≠ []) :
    ((C.nvrtcGetPTXSize s p.nativePointer).result = NVRTC_SUCCESS →
      (∀ buffer ∈ (Java_CUDAWrapper_nvrtc_JNvrtc_nvrtcGetPTXNative C (Env.start s) (some p)
          (some slots)).env.buffers,
          buffer.size = toSizeT (C.nvrtcGetPTXSize s p.nativePointer).out)
      ∧ (∀ h buffer, NativeCall.nvrtcGetPTX h buffer
            ∈ (Java_CUDAWrapper_nvrtc_JNvrtc_nvrtcGetPTXNative C (Env.start s) (some p)
                (some slots)).env.calls →
          buffer ∈ (Java_CUDAWrapper_nvrtc_JNvrtc_nvrtcGetPTXNative C (Env.start s) (some p)
              (some slots)).env.buffers)
      ∧ (C.operatorNewArray (toSizeT (C.nvrtcGetPTXSize s p.nativePointer).out) = true →
        ∃ buffer : Buffer,
          buffer.size = toSizeT (C.nvrtcGetPTXSize s p.nativePointer).out
          ∧ (Java_CUDAWrapper_nvrtc_JNvrtc_nvrtcGetPTXNative C (Env.start s) (some p)
              (some slots)).env.buffers = [buffer]
          ∧ (Java_CUDAWrapper_nvrtc_JNvrtc_nvrtcGetPTXNative C (Env.start s) (some p)
              (some slots)).env.calls
            = [NativeCall.nvrtcGetPTXSize p.nativePointer,
                NativeCall.nvrtcGetPTX p.nativePointer buffer]))
    ∧ ((C.nvrtcGetProgramLogSize s p.nativePointer).result = NVRTC_SUCCESS →
      (∀ buffer ∈ (Java_CUDAWrapper_nvrtc_JNvrtc_nvrtcGetProgramLogNative C (Env.start s) (some p)
          (some slots)).env.buffers,
          buffer.size = toSizeT (C.nvrtcGetProgramLogSize s p.nativePointer).out)
      ∧ (∀ h buffer, NativeCall.nvrtcGetProgramLog h buffer
            ∈ (Java_CUDAWrapper_nvrtc_JNvrtc_nvrtcGetProgramLogNative C (Env.start s) (some p)
                (some slots)).env.calls →
          buffer ∈ (Java_CUDAWrapper_nvrtc_JNvrtc_nvrtcGetProgramLogNative C (Env.start s) (some p)
              (some slots)).env.buffers)
      ∧ (C.operatorNewArray (toSizeT (C.nvrtcGetProgramLogSize s p.nativePointer).out)
            = true →
        ∃ buffer : Buffer,
          buffer.size = toSizeT (C.nvrtcGetProgramLogSize s p.nativePointer).out
          ∧ (Java_CUDAWrapper_nvrtc_JNvrtc_nvrtcGetProgramLogNative C (Env.start s) (some p)
              (some slots)).env.buffers = [buffer]
          ∧ (Java_CUDAWrapper_nvrtc_JNvrtc_nvrtcGetProgramLogNative C (Env.start s) (some p)
              (some slots)).env.calls
            = [NativeCall.nvrtcGetProgramLogSize p.nativePointer,
                NativeCall.nvrtcGetProgramLog p.nativePointer buffer])) := by
  constructor
  · intro hq
    by_cases hm : C.operatorNewArray (toSizeT (C.nvrtcGetPTXSize s p.nativePointer).out) = true
    · have key : (Java_CUDAWrapper_nvrtc_JNvrtc_nvrtcGetPTXNative C (Env.start s) (some p)
        (some slots)).env.buffers
            = [⟨0, toSizeT (C.nvrtcGetPTXSize s p.nativePointer).out⟩]
          ∧ (Java_CUDAWrapper_nvrtc_JNvrtc_nvrtcGetPTXNative C (Env.start s) (some p)
              (some slots)).env.calls
            = [NativeCall.nvrtcGetPTXSize p.nativePointer,
                NativeCall.nvrtcGetPTX p.nativePointer
                  ⟨0, toSizeT (C.nvrtcGetPTXSize s p.nativePointer).out⟩] := by
        cases hn : C.NewStringUTF (some (C.nvrtcGetPTX
            (C.nvrtcGetPTXSize s p.nativePointer).state p.nativePointer
            ⟨0, toSizeT (C.nvrtcGetPTXSize s p.nativePointer).out⟩).out) <;>
          simp [Java_CUDAWrapper_nvrtc_JNvrtc_nvrtcGetPTXNative, hs, hq, hm, hn, newCharArray,
              deleteBuffer, Logger.log, Env.start,
            Env.called, getNativePointerValue, ThrowByName]
      refine ⟨?_, ?_, fun _ => ⟨_, rfl, key.1, key.2⟩⟩
      · intro buffer hb
        rw [key.1, List.mem_singleton] at hb
        rw [hb]
      · intro h buffer hb
        rw [key.2] at hb
        rw [key.1]
        simp at hb
        simp [hb.2]
    · have key : (Java_CUDAWrapper_nvrtc_JNvrtc_nvrtcGetPTXNative C (Env.start s) (some p)
        (some slots)).env.buffers = []
          ∧ (Java_CUDAWrapper_nvrtc_JNvrtc_nvrtcGetPTXNative C (Env.start s) (some p)
              (some slots)).env.calls
            = [NativeCall.nvrtcGetPTXSize p.nativePointer] := by
        simp [Java_CUDAWrapper_nvrtc_JNvrtc_nvrtcGetPTXNative, hs, hq, hm, newCharArray, Logger.log,
            Env.start, Env.called,
          getNativePointerValue]
      refine ⟨?_, ?_, fun h => absurd h hm⟩
      · intro buffer hb
        rw [key.1] at hb
        cases hb
      · intro h buffer hb
        rw [key.2] at hb
        simp at hb
  · intro hq
    by_cases hm : C.operatorNewArray
        (toSizeT (C.nvrtcGetProgramLogSize s p.nativePointer).out) = true
    · have key : (Java_CUDAWrapper_nvrtc_JNvrtc_nvrtcGetProgramLogNative C (Env.start s) (some p)
        (some slots)).env.buffers
            = [⟨0, toSizeT (C.nvrtcGetProgramLogSize s p.nativePointer).out⟩]
          ∧ (Java_CUDAWrapper_nvrtc_JNvrtc_nvrtcGetProgramLogNative C (Env.start s) (some p)
              (some slots)).env.calls
            = [NativeCall.nvrtcGetProgramLogSize p.nativePointer,
                NativeCall.nvrtcGetProgramLog p.nativePointer
                  ⟨0, toSizeT (C.nvrtcGetProgramLogSize s p.nativePointer).out⟩] := by
        cases hn : C.NewStringUTF (some (C.nvrtcGetProgramLog
            (C.nvrtcGetProgramLogSize s p.nativePointer).state p.nativePointer
            ⟨0, toSizeT (C.nvrtcGetProgramLogSize s p.nativePointer).out⟩).out) <;>
          simp [Java_CUDAWrapper_nvrtc_JNvrtc_nvrtcGetProgramLogNative, hs, hq, hm, hn,
              newCharArray, deleteBuffer, Logger.log, Env.start,
            Env.called, getNativePointerValue, ThrowByName]
      refine ⟨?_, ?_, fun _ => ⟨_, rfl, key.1, key.2⟩⟩
      · intro buffer hb
        rw [key.1, List.mem_singleton] at hb
        rw [hb]
      · intro h buffer hb
        rw [key.2] at hb
        rw [key.1]
        simp at hb
        simp [hb.2]
    · have key : (Java_CUDAWrapper_nvrtc_JNvrtc_nvrtcGetProgramLogNative C (Env.start s) (some p)
        (some slots)).env.buffers = []
          ∧ (Java_CUDAWrapper_nvrtc_JNvrtc_nvrtcGetProgramLogNative C (Env.start s) (some p)
              (some slots)).env.calls
            = [NativeCall.nvrtcGetProgramLogSize p.nativePointer] := by
        simp [Java_CUDAWrapper_nvrtc_JNvrtc_nvrtcGetProgramLogNative, hs, hq, hm, newCharArray,
            Logger.log, Env.start, Env.called,
          getNativePointerValue]
      refine ⟨?_, ?_, fun h => absurd h hm⟩
      · intro buffer hb
        rw [key.1] at hb
        cases hb
      · intro h buffer hb
        rw [key.2] at hb
        simp at hb

/-- Witness for C8, amended: both fetch operations on the toy library, whose size queries
report 5 bytes for the compiled code and 1 byte for the log, sizes the C++ runtime can
provide. -/
theorem C8_buffer_has_reported_size_amended_witness :
    ([(none : Option String)] ≠ []
      ∧ (toyCollab.nvrtcGetPTXSize 0 4096).result = NVRTC_SUCCESS
      ∧ toyCollab.operatorNewArray (toSizeT (toyCollab.nvrtcGetPTXSize 0 4096).out) = true
      ∧ (toyCollab.nvrtcGetProgramLogSize 0 4096).result = NVRTC_SUCCESS
      ∧ toyCollab.operatorNewArray (toSizeT (toyCollab.nvrtcGetProgramLogSize 0 4096).out)
          = true)
    ∧ (∃ buffer : Buffer, buffer.size = 5
        ∧ (Java_CUDAWrapper_nvrtc_JNvrtc_nvrtcGetPTXNative toyCollab (Env.start 0) (some ⟨4096⟩)
            (some [none])).env.buffers = [buffer]
        ∧ (Java_CUDAWrapper_nvrtc_JNvrtc_nvrtcGetPTXNative toyCollab (Env.start 0) (some ⟨4096⟩)
            (some [none])).env.calls
          = [NativeCall.nvrtcGetPTXSize 4096, NativeCall.nvrtcGetPTX 4096 buffer])
    ∧ (∃ buffer : Buffer, buffer.size = 1
        ∧ (Java_CUDAWrapper_nvrtc_JNvrtc_nvrtcGetProgramLogNative toyCollab (Env.start 0)
            (some ⟨4096⟩) (some [none])).env.buffers = [buffer]
        ∧ (Java_CUDAWrapper_nvrtc_JNvrtc_nvrtcGetProgramLogNative toyCollab (Env.start 0)
            (some ⟨4096⟩) (some [none])).env.calls
          = [NativeCall.nvrtcGetProgramLogSize 4096,
              NativeCall.nvrtcGetProgramLog 4096 buffer]) :=
  have h := C8_buffer_has_reported_size_amended toyCollab 0 ⟨4096⟩ [none] (by decide)
  ⟨⟨by decide, by decide, by decide, by decide, by decide⟩,
    (h.1 (by decide)).2.2 (by decide), (h.2 (by decide)).2.2 (by decide)⟩

/-- C9: in `nvrtcGetPTX`, `nvrtcGetProgramLog` and `nvrtcGetLoweredName`, on a
valid-argument call that reaches the library calls (for the two fetch operations: the
size query succeeds and the buffer is allocated, so the fetch is called) and in which the
host string constructor yields null, the call raises exactly one `OutOfMemoryError`,
returns `CUDA_INTERNAL_ERROR` in place of the library result code, leaves the output
array, slot 0 included, as it was, and leaves the handle as it was, with no write to its
field. -/
theorem C9_string_construction_failure {σ : Type} (C : Collab σ) (s : σ)
    (p : NativePointerObject) (e : String) (slots : List (Option String))
    (hs : slots ≠ []) :
    ((C.nvrtcGetPTXSize s p.nativePointer).result = NVRTC_SUCCESS →
      C.operatorNewArray (toSizeT (C.nvrtcGetPTXSize s p.nativePointer).out) = true →
      C.NewStringUTF (some (C.nvrtcGetPTX (C.nvrtcGetPTXSize s p.nativePointer).state
        p.nativePointer ⟨0, toSizeT (C.nvrtcGetPTXSize s p.nativePointer).out⟩).out) = none →
      (Java_CUDAWrapper_nvrtc_JNvrtc_nvrtcGetPTXNative C (Env.start s) (some p) (some slots)).ret =
          some C.CUDA_INTERNAL_ERROR
      ∧ (Java_CUDAWrapper_nvrtc_JNvrtc_nvrtcGetPTXNative C (Env.start s) (some p)
          (some slots)).env.thrown = [outOfMemoryError]
      ∧ (Java_CUDAWrapper_nvrtc_JNvrtc_nvrtcGetPTXNative C (Env.start s) (some p)
          (some slots)).env.calls
        = [NativeCall.nvrtcGetPTXSize p.nativePointer,
            NativeCall.nvrtcGetPTX p.nativePointer
              ⟨0, toSizeT (C.nvrtcGetPTXSize s p.nativePointer).out⟩]
      ∧ (Java_CUDAWrapper_nvrtc_JNvrtc_nvrtcGetPTXNative C (Env.start s) (some p)
          (some slots)).slots = some slots
      ∧ (Java_CUDAWrapper_nvrtc_JNvrtc_nvrtcGetPTXNative C (Env.start s) (some p) (some slots)).prog
          = some p
      ∧ (Java_CUDAWrapper_nvrtc_JNvrtc_nvrtcGetPTXNative C (Env.start s) (some p)
          (some slots)).env.writes = [])
    ∧ ((C.nvrtcGetProgramLogSize s p.nativePointer).result = NVRTC_SUCCESS →
      C.operatorNewArray (toSizeT (C.nvrtcGetProgramLogSize s p.nativePointer).out) = true →
      C.NewStringUTF (some (C.nvrtcGetProgramLog
        (C.nvrtcGetProgramLogSize s p.nativePointer).state p.nativePointer
        ⟨0, toSizeT (C.nvrtcGetProgramLogSize s p.nativePointer).out⟩).out) = none →
      (Java_CUDAWrapper_nvrtc_JNvrtc_nvrtcGetProgramLogNative C (Env.start s) (some p)
          (some slots)).ret = some C.CUDA_INTERNAL_ERROR
      ∧ (Java_CUDAWrapper_nvrtc_JNvrtc_nvrtcGetProgramLogNative C (Env.start s) (some p)
          (some slots)).env.thrown = [outOfMemoryError]
      ∧ (Java_CUDAWrapper_nvrtc_JNvrtc_nvrtcGetProgramLogNative C (Env.start s) (some p)
          (some slots)).env.calls
        = [NativeCall.nvrtcGetProgramLogSize p.nativePointer,
            NativeCall.nvrtcGetProgramLog p.nativePointer
              ⟨0, toSizeT (C.nvrtcGetProgramLogSize s p.nativePointer).out⟩]
      ∧ (Java_CUDAWrapper_nvrtc_JNvrtc_nvrtcGetProgramLogNative C (Env.start s) (some p)
          (some slots)).slots = some slots
      ∧ (Java_CUDAWrapper_nvrtc_JNvrtc_nvrtcGetProgramLogNative C (Env.start s) (some p)
          (some slots)).prog = some p
      ∧ (Java_CUDAWrapper_nvrtc_JNvrtc_nvrtcGetProgramLogNative C (Env.start s) (some p)
          (some slots)).env.writes = [])
    ∧ (C.NewStringUTF (C.nvrtcGetLoweredName s p.nativePointer (some e)).out = none →
      (Java_CUDAWrapper_nvrtc_JNvrtc_nvrtcGetLoweredNameNative C (Env.start s) (some p) (some e)
          (some slots)).ret = C.CUDA_INTERNAL_ERROR
      ∧ (Java_CUDAWrapper_nvrtc_JNvrtc_nvrtcGetLoweredNameNative C (Env.start s) (some p) (some e)
          (some slots)).env.thrown
        = [outOfMemoryError]
      ∧ (Java_CUDAWrapper_nvrtc_JNvrtc_nvrtcGetLoweredNameNative C (Env.start s) (some p) (some e)
          (some slots)).env.calls
        = [NativeCall.nvrtcGetLoweredName p.nativePointer (some e)]
      ∧ (Java_CUDAWrapper_nvrtc_JNvrtc_nvrtcGetLoweredNameNative C (Env.start s) (some p) (some e)
          (some slots)).slots = some slots
      ∧ (Java_CUDAWrapper_nvrtc_JNvrtc_nvrtcGetLoweredNameNative C (Env.start s) (some p) (some e)
          (some slots)).prog = some p
      ∧ (Java_CUDAWrapper_nvrtc_JNvrtc_nvrtcGetLoweredNameNative C (Env.start s) (some p) (some e)
          (some slots)).env.writes = []) := by
  refine ⟨?_, ?_, ?_⟩
  · intro hq hm hn
    simp [Java_CUDAWrapper_nvrtc_JNvrtc_nvrtcGetPTXNative, hs, hq, hm, hn, newCharArray,
        deleteBuffer, Logger.log, Env.start,
      Env.called, getNativePointerValue, ThrowByName, outOfMemoryError]
  · intro hq hm hn
    simp [Java_CUDAWrapper_nvrtc_JNvrtc_nvrtcGetProgramLogNative, hs, hq, hm, hn, newCharArray,
        deleteBuffer, Logger.log, Env.start,
      Env.called, getNativePointerValue, ThrowByName, outOfMemoryError]
  · intro hn
    simp [Java_CUDAWrapper_nvrtc_JNvrtc_nvrtcGetLoweredNameNative, hs, hn, Logger.log, Env.start,
        Env.called, getNativePointerValue,
      ThrowByName, outOfMemoryError]

/-- Witness for C9: the three operations on the toy library in a managed runtime that
cannot build any string; the buffers of 5 bytes and 1 byte can be allocated. -/
theorem C9_string_construction_failure_witness :
    ([(none : Option String)] ≠ []
      ∧ (toyCollabNoString.nvrtcGetPTXSize 0 4096).result = NVRTC_SUCCESS
      ∧ toyCollabNoString.operatorNewArray
          (toSizeT (toyCollabNoString.nvrtcGetPTXSize 0 4096).out) = true
      ∧ (toyCollabNoString.nvrtcGetProgramLogSize 0 4096).result = NVRTC_SUCCESS
      ∧ toyCollabNoString.operatorNewArray
          (toSizeT (toyCollabNoString.nvrtcGetProgramLogSize 0 4096).out) = true
      ∧ toyCollabNoString.NewStringUTF
          (toyCollabNoString.nvrtcGetLoweredName 0 4096 (some "f<int>")).out = none)
    ∧ (Java_CUDAWrapper_nvrtc_JNvrtc_nvrtcGetPTXNative toyCollabNoString (Env.start 0) (some ⟨4096⟩)
        (some [none])).env.thrown
        = [outOfMemoryError]
    ∧ (Java_CUDAWrapper_nvrtc_JNvrtc_nvrtcGetProgramLogNative toyCollabNoString (Env.start 0)
        (some ⟨4096⟩) (some [none])).env.thrown
        = [outOfMemoryError]
    ∧ (Java_CUDAWrapper_nvrtc_JNvrtc_nvrtcGetLoweredNameNative toyCollabNoString (Env.start 0)
        (some ⟨4096⟩) (some "f<int>")
        (some [none])).slots = some [none] :=
  have h := C9_string_construction_failure toyCollabNoString 0 ⟨4096⟩ "f<int>" [none]
    (by decide)
  ⟨⟨by decide, by decide, by decide, by decide, by decide, rfl⟩,
    (h.1 (by decide) (by decide) rfl).2.1, (h.2.1 (by decide) (by decide) rfl).2.1,
    (h.2.2 rfl).2.2.2.1⟩

/-- C10: every operation other than create and destroy leaves the native reference of the
handle as it was before the call, on every path and for every library result code:
`nvrtcCompileProgram` stores into the field only the value it read from it, and
`nvrtcGetPTXSize`, `nvrtcGetPTX`, `nvrtcGetProgramLogSize`, `nvrtcGetProgramLog`,
`nvrtcAddNameExpression`, `nvrtcGetLoweredName` and `nvrtcVersion` never write the
field. -/
theorem C10_handle_unchanged_elsewhere {σ : Type} (C : Collab σ) (s : σ)
    (prog : Option NativePointerObject) (major minor sizeRet : Option (List Int))
    (expr : Option String) (numOptions : Int)
    (options slots : Option (List (Option String))) :
    -- nvrtcCompileProgram
    ((Java_CUDAWrapper_nvrtc_JNvrtc_nvrtcCompileProgramNative C (Env.start s) prog numOptions
        options).prog = prog
      ∧ ∀ v ∈ (Java_CUDAWrapper_nvrtc_JNvrtc_nvrtcCompileProgramNative C (Env.start s) prog
          numOptions options).env.writes,
          prog = some ⟨v⟩)
    -- nvrtcGetPTXSize
    ∧ ((Java_CUDAWrapper_nvrtc_JNvrtc_nvrtcGetPTXSizeNative C (Env.start s) prog sizeRet).prog =
        prog
      ∧ (Java_CUDAWrapper_nvrtc_JNvrtc_nvrtcGetPTXSizeNative C (Env.start s) prog
          sizeRet).env.writes = [])
    -- nvrtcGetPTX
    ∧ ((Java_CUDAWrapper_nvrtc_JNvrtc_nvrtcGetPTXNative C (Env.start s) prog slots).prog = prog
      ∧ (Java_CUDAWrapper_nvrtc_JNvrtc_nvrtcGetPTXNative C (Env.start s) prog slots).env.writes =
          [])
    -- nvrtcGetProgramLogSize
    ∧ ((Java_CUDAWrapper_nvrtc_JNvrtc_nvrtcGetProgramLogSizeNative C (Env.start s) prog
        sizeRet).prog = prog
      ∧ (Java_CUDAWrapper_nvrtc_JNvrtc_nvrtcGetProgramLogSizeNative C (Env.start s) prog
          sizeRet).env.writes = [])
    -- nvrtcGetProgramLog
    ∧ ((Java_CUDAWrapper_nvrtc_JNvrtc_nvrtcGetProgramLogNative C (Env.start s) prog slots).prog =
        prog
      ∧ (Java_CUDAWrapper_nvrtc_JNvrtc_nvrtcGetProgramLogNative C (Env.start s) prog
          slots).env.writes = [])
    -- nvrtcAddNameExpression
    ∧ ((Java_CUDAWrapper_nvrtc_JNvrtc_nvrtcAddNameExpressionNative C (Env.start s) prog expr).prog =
        prog
      ∧ (Java_CUDAWrapper_nvrtc_JNvrtc_nvrtcAddNameExpressionNative C (Env.start s) prog
          expr).env.writes = [])
    -- nvrtcGetLoweredName
    ∧ ((Java_CUDAWrapper_nvrtc_JNvrtc_nvrtcGetLoweredNameNative C (Env.start s) prog expr
        slots).prog = prog
      ∧ (Java_CUDAWrapper_nvrtc_JNvrtc_nvrtcGetLoweredNameNative C (Env.start s) prog expr
          slots).env.writes = [])
    -- nvrtcVersion
    ∧ (Java_CUDAWrapper_nvrtc_JNvrtc_nvrtcVersionNative C (Env.start s) major minor).env.writes = []
        := by
  refine ⟨?_, ?_, ?_, ?_, ?_, ?_, ?_, ?_⟩
  · cases prog with
    | none => simp [Java_CUDAWrapper_nvrtc_JNvrtc_nvrtcCompileProgramNative, ThrowByName, Env.start]
    | some p =>
      by_cases ho : lengthOk options numOptions
      · have h := compileProgram_valid C (Env.start s) p numOptions options ho _ rfl _ rfl
        refine ⟨h.2.1, ?_⟩
        intro v hv
        rw [h.2.2.2.2.1] at hv
        simp only [Env.start, List.nil_append, List.mem_singleton] at hv
        subst hv
        rfl
      · simp only [lengthOk, not_forall] at ho
        obtain ⟨l, hl, hne⟩ := ho
        have h := (compileProgram_options_mismatch C s p numOptions options ⟨l, hl, hne⟩)
        rw [h]
        simp [Env.rejected]
  · cases prog <;> cases sizeRet <;>
      simp only [Java_CUDAWrapper_nvrtc_JNvrtc_nvrtcGetPTXSizeNative, Logger.log, set] <;>
      (repeat' split) <;>
      simp [ThrowByName, Env.start, Env.called]
  · cases prog with
    | none => cases slots <;> simp [Java_CUDAWrapper_nvrtc_JNvrtc_nvrtcGetPTXNative, ThrowByName,
        Env.start]
    | some p =>
      cases slots with
      | none => simp [Java_CUDAWrapper_nvrtc_JNvrtc_nvrtcGetPTXNative, ThrowByName, Env.start]
      | some l =>
        by_cases hm : C.operatorNewArray (toSizeT (C.nvrtcGetPTXSize s p.nativePointer).out) = true
        · simp only [Java_CUDAWrapper_nvrtc_JNvrtc_nvrtcGetPTXNative, Logger.log, newCharArray,
            Env.start, Env.called,
            getNativePointerValue, hm, if_true]
          (repeat' split) <;>
          simp [ThrowByName, deleteBuffer]
        · rw [Bool.not_eq_true] at hm
          simp only [Java_CUDAWrapper_nvrtc_JNvrtc_nvrtcGetPTXNative, Logger.log, newCharArray,
              Env.start, Env.called,
            getNativePointerValue, hm, Bool.false_eq_true, if_false]
          (repeat' split) <;>
          simp [ThrowByName]
  · cases prog <;> cases sizeRet <;>
      simp only [Java_CUDAWrapper_nvrtc_JNvrtc_nvrtcGetProgramLogSizeNative, Logger.log, set] <;>
      (repeat' split) <;>
      simp [ThrowByName, Env.start, Env.called]
  · cases prog with
    | none => cases slots <;> simp [Java_CUDAWrapper_nvrtc_JNvrtc_nvrtcGetProgramLogNative,
        ThrowByName, Env.start]
    | some p =>
      cases slots with
      | none => simp [Java_CUDAWrapper_nvrtc_JNvrtc_nvrtcGetProgramLogNative, ThrowByName,
          Env.start]
      | some l =>
        by_cases hm : C.operatorNewArray (toSizeT (C.nvrtcGetProgramLogSize s p.nativePointer).out)
            = true
        · simp only [Java_CUDAWrapper_nvrtc_JNvrtc_nvrtcGetProgramLogNative, Logger.log,
            newCharArray, Env.start, Env.called,
            getNativePointerValue, hm, if_true]
          (repeat' split) <;>
          simp [ThrowByName, deleteBuffer]
        · rw [Bool.not_eq_true] at hm
          simp only [Java_CUDAWrapper_nvrtc_JNvrtc_nvrtcGetProgramLogNative, Logger.log,
              newCharArray, Env.start, Env.called,
            getNativePointerValue, hm, Bool.false_eq_true, if_false]
          (repeat' split) <;>
          simp [ThrowByName]
  · cases prog <;> cases expr <;>
      simp [Java_CUDAWrapper_nvrtc_JNvrtc_nvrtcAddNameExpressionNative, ThrowByName, Env.start,
          Logger.log, Env.called]
  · cases prog <;> cases expr <;> cases slots <;>
      simp only [Java_CUDAWrapper_nvrtc_JNvrtc_nvrtcGetLoweredNameNative, Logger.log] <;>
      (repeat' split) <;>
      simp [ThrowByName, Env.start, Env.called]
  · cases major <;> cases minor <;>
      simp only [Java_CUDAWrapper_nvrtc_JNvrtc_nvrtcVersionNative, Logger.log, set] <;>
      (repeat' split) <;>
      simp [ThrowByName, Env.start, Env.called]

end JNvrtc
